import Mathlib

/-!
Shallow embedding of the etherspot/relayx transaction relayer core
(src/types.rs, src/storage.rs, src/config.rs, src/rpc.rs) and proofs about
its specified behaviour.

Modelling conventions:
* Rust u64/u128/U256 values are Nat with explicit bounds (mod 2^w) where
  overflow matters; release-profile wrapping semantics are used for the
  unchecked u128 arithmetic in bump_gas_price_hex.
* UUIDs are Nat keys; the RocksDB store is an association list keyed like
  the request: and resubmission: key families.
* Timestamps (chrono Utc::now) are Nat values supplied by the caller.
* All chain-facing calls (gas price, eth_call, estimate_gas, balance,
  receipt, broadcast) and the external crypto (RLP + signature recovery of
  the authorization list) are oracle inputs carried in environment records;
  everything after those call boundaries is translated from the source.
-/

namespace RelayX

/-- Equality on Except values is decidable componentwise. -/
instance {e a : Type} [DecidableEq e] [DecidableEq a] : DecidableEq (Except e a)
  | .error x, .error y =>
      if h : x = y then .isTrue (by rw [h]) else .isFalse (by simp [h])
  | .error _, .ok _ => .isFalse (by simp)
  | .ok _, .error _ => .isFalse (by simp)
  | .ok x, .ok y =>
      if h : x = y then .isTrue (by rw [h]) else .isFalse (by simp [h])

/-- Request lifecycle status, from the RequestStatus enum in src/types.rs. -/
inductive RequestStatus
  | Pending
  | Processing
  | Completed
  | Failed
deriving DecidableEq, Repr

/-- Persisted request record, from RelayerRequest in src/types.rs.
UUIDs are modelled as Nat, DateTime as Nat. -/
structure RelayerRequest where
  id : Nat
  from_address : String
  to_address : String
  amount : String
  gas_limit : Nat
  gas_price : String
  data : Option String
  nonce : Nat
  chain_id : Nat
  transaction_hash : Option String
  status : RequestStatus
  created_at : Nat
  updated_at : Nat
  error_message : Option String
deriving DecidableEq, Repr

/-- Resubmission record, from Resubmission in src/types.rs. -/
structure Resubmission where
  status : Nat
  transaction_hash : String
  chain_id : String
deriving DecidableEq, Repr

/-- Replace-or-insert on an association list: the semantics of a RocksDB
put under a fixed key (first matching entry is replaced in place). -/
def putAssoc {α β : Type} [DecidableEq α] : List (α × β) → α → β → List (α × β)
  | [], k, v => [(k, v)]
  | (k0, v0) :: rest, k, v =>
      if k0 = k then (k, v) :: rest else (k0, v0) :: putAssoc rest k v

/-- The durable store of src/storage.rs: the request: key family and the
resubmission: key family of the RocksDB database. -/
structure Store where
  requests : List (Nat × RelayerRequest)
  resubs : List ((Nat × String × String) × Resubmission)
deriving DecidableEq, Repr

/-- Storage::store_request: atomic single-key write under request:id. -/
def Store.storeRequest (s : Store) (r : RelayerRequest) : Store :=
  { s with requests := putAssoc s.requests r.id r }

/-- Storage::get_request: point read. -/
def Store.getRequest (s : Store) (id : Nat) : Option RelayerRequest :=
  (s.requests.find? (fun p => p.1 = id)).map (fun p => p.2)

/-- Storage::update_request_status: read-modify-write that sets status,
error_message and refreshes updated_at; no-op when the key is absent. -/
def Store.updateRequestStatus (s : Store) (id : Nat) (st : RequestStatus)
    (errorMessage : Option String) (now : Nat) : Store :=
  match s.getRequest id with
  | some r =>
      s.storeRequest { r with status := st, updated_at := now, error_message := errorMessage }
  | none => s

/-- Storage::update_request_tx_hash: read-modify-write setting
transaction_hash and refreshing updated_at; no-op when the key is absent. -/
def Store.updateRequestTxHash (s : Store) (id : Nat) (txHash : String) (now : Nat) : Store :=
  match s.getRequest id with
  | some r =>
      s.storeRequest { r with transaction_hash := some txHash, updated_at := now }
  | none => s

/-- Storage::add_resubmission: write under the composite key
resubmission:id:chain:hash. -/
def Store.addResubmission (s : Store) (requestId : Nat) (resub : Resubmission) : Store :=
  { s with
    resubs := putAssoc s.resubs (requestId, resub.chain_id, resub.transaction_hash) resub }

/-- Storage::get_resubmissions: all resubmission entries of a request.
The RocksDB prefix iteration returns them in key order; the model keeps
the list order of the store, which the claims do not depend on. -/
def Store.getResubmissions (s : Store) (requestId : Nat) : List Resubmission :=
  (s.resubs.filter (fun p => p.1.1 = requestId)).map (fun p => p.2)

/-- Storage::get_requests: snapshot of the request records, bounded by an
optional limit. -/
def Store.getRequests (s : Store) (limit : Option Nat) : List RelayerRequest :=
  match limit with
  | some n => (s.requests.map (fun p => p.2)).take n
  | none => s.requests.map (fun p => p.2)

/-- Store well-formedness: every entry is keyed by its record's id and the
keys are distinct, which RocksDB guarantees for the request: key family. -/
def Store.WF (s : Store) : Prop :=
  (∀ p ∈ s.requests, p.2.id = p.1) ∧ (s.requests.map Prod.fst).Nodup

instance (s : Store) : Decidable s.WF := by
  unfold Store.WF; infer_instance

/-! ## Hex strings and numeric parsing -/

/-- Value of one hexadecimal digit character (0-9, a-f, A-F). -/
def hexDigitVal (c : Char) : Option Nat :=
  if '0' ≤ c ∧ c ≤ '9' then some (c.toNat - '0'.toNat)
  else if 'a' ≤ c ∧ c ≤ 'f' then some (c.toNat - 'a'.toNat + 10)
  else if 'A' ≤ c ∧ c ≤ 'F' then some (c.toNat - 'A'.toNat + 10)
  else none

/-- Accumulate hex digits left to right; none on an empty digit string or a
non-digit character. -/
def parseHexCore (cs : List Char) : Option Nat :=
  if cs.isEmpty then none
  else
    cs.foldl
      (fun acc c =>
        match acc, hexDigitVal c with
        | some a, some d => some (a * 16 + d)
        | _, _ => none)
      (some 0)

/-- Rust u128::from_str_radix(s, 16): an optional leading plus sign, then a
non-empty run of hex digits; errors (none) on any other character or on
overflow past u128. -/
def u128FromStrRadix16 (s : String) : Option Nat :=
  let cs := match s.data with
    | '+' :: rest => rest
    | cs => cs
  match parseHexCore cs with
  | some v => if v < 2 ^ 128 then some v else none
  | none => none

/-- Rust char::is_whitespace restricted to the ASCII whitespace characters
(the only ones the relayer's string inputs contain). -/
def isRustWhitespace (c : Char) : Bool :=
  c = ' ' ∨ c = '\t' ∨ c = '\n' ∨ c = '\r'

/-- Rust str::trim over the characters of the string. -/
def rustTrim (s : String) : String :=
  String.mk (((s.data.dropWhile isRustWhitespace).reverse.dropWhile isRustWhitespace).reverse)

/-- Rust str::is_empty. -/
def strIsEmpty (s : String) : Bool := s.data.isEmpty

/-- Rust str::starts_with("0x"). -/
def starts0x (s : String) : Bool :=
  match s.data with
  | '0' :: 'x' :: _ => true
  | _ => false

/-- Rust str::len for the ASCII strings handled here (byte length equals
character count). -/
def strLen (s : String) : Nat := s.data.length

/-- Strip a single leading 0x, the effect of str::strip_prefix in the source. -/
def strip0x (s : String) : String :=
  match s.data with
  | '0' :: 'x' :: rest => String.mk rest
  | _ => s

/-- str::trim_start_matches("0x") as used by parse_hex_u256 in src/rpc.rs:
strips every repeated leading 0x occurrence. -/
def trimLead0x : List Char → List Char
  | '0' :: 'x' :: rest => trimLead0x rest
  | cs => cs

/-- parse_hex_u256 from src/rpc.rs: trim all leading 0x, reject the empty
remainder, then U256::from_str_radix(.., 16) (digits only, none on
overflow past 2^256). -/
def parse_hex_u256 (value : String) : Option Nat :=
  let trimmed := trimLead0x value.data
  if trimmed.isEmpty then none
  else
    match parseHexCore trimmed with
    | some v => if v < 2 ^ 256 then some v else none
    | none => none

/-- Rust format "0x{:x}": lowercase hex with a 0x prefix. -/
def toHexString (n : Nat) : String :=
  "0x" ++ String.mk (Nat.toDigits 16 n)

/-- bump_gas_price_hex from src/rpc.rs: strip one optional 0x, parse as u128
hex; on success return the hex encoding of v + v * percent / 100 (u128
wrapping semantics), otherwise return the input unchanged. -/
def bump_gas_price_hex (gasPriceHex : String) (percent : Nat) : String :=
  match u128FromStrRadix16 (strip0x gasPriceHex) with
  | some v => toHexString ((v + (v * percent % 2 ^ 128) / 100) % 2 ^ 128)
  | none => gasPriceHex

/-- Pairs of hex digits as bytes; none on odd length or a non-digit. -/
def hexPairs : List Char → Option (List Nat)
  | [] => some []
  | c1 :: c2 :: rest =>
      match hexDigitVal c1, hexDigitVal c2, hexPairs rest with
      | some a, some b, some l => some ((a * 16 + b) :: l)
      | _, _, _ => none
  | [_] => none

/-- alloy hex decoding with an optional 0x prefix, as used for Bytes and
Address parsing (str::parse in the source). -/
def parseHexBytes (s : String) : Option (List Nat) :=
  hexPairs (strip0x s).data

/-- alloy Address parsing: hex decoding to exactly 20 bytes. -/
def parseAddress (s : String) : Option (List Nat) :=
  match parseHexBytes s with
  | some bytes => if bytes.length = 20 then some bytes else none
  | none => none

/-- Rust str::parse::<u64>: optional leading plus sign, then non-empty
decimal digits, error on overflow past u64. -/
def parseDecU64 (s : String) : Option Nat :=
  let cs := match s.data with
    | '+' :: rest => rest
    | cs => cs
  if cs.isEmpty then none
  else if cs.all (fun c => '0' ≤ c ∧ c ≤ '9') then
    let v := cs.foldl (fun a c => a * 10 + (c.toNat - '0'.toNat)) 0
    if v < 2 ^ 64 then some v else none
  else none

/-- ASCII lowercasing of one character (Rust to_ascii_lowercase). -/
def asciiLowerChar (c : Char) : Char :=
  if 'A' ≤ c ∧ c ≤ 'Z' then Char.ofNat (c.toNat + 32) else c

/-- Rust str::to_ascii_lowercase. -/
def asciiLower (s : String) : String :=
  String.mk (s.data.map asciiLowerChar)

/-! ## Configuration -/

/-- Pure view of src/config.rs Config together with its merged JSON config
file and environment: the lookup tables the rpc module reads. The
supportedTokens field is the result of get_supported_tokens (the sorted
deduplicated token keys under chainlink.tokenUsd).

The disableSimulation flag is Modelled from the spec: the accessor
Config::is_simulation_disabled and its backing field are called from
src/rpc.rs and constructed by its tests but their definition is not under
src/; per spec section 4.C it is a policy flag that defaults to false. -/
structure Config where
  rpcUrls : List (Nat × String)
  feeCollectorEnv : Option String
  feeCollectorCfg : Option String
  defaultTokenEnv : Option String
  defaultTokenCfg : Option String
  supportedTokens : List String
  disableSimulation : Bool
  stubMode : Bool
deriving DecidableEq, Repr

/-- Config::rpc_url_for_chain (keyed by the decimal chain-id string in the
source; the model keys by the numeric chain id). -/
def Config.rpcUrlForChain (c : Config) (chainId : Nat) : Option String :=
  (c.rpcUrls.find? (fun p => p.1 = chainId)).map (fun p => p.2)

/-- Config::is_chain_supported. -/
def Config.isChainSupported (c : Config) (chainId : Nat) : Bool :=
  (c.rpcUrlForChain chainId).isSome

/-- Modelled from the spec: Config::is_simulation_disabled (definition not
under src/) returns the disable_simulation policy flag. -/
def Config.isSimulationDisabled (c : Config) : Bool :=
  c.disableSimulation

/-- Fee collector resolution from src/rpc.rs: the RELAYX_FEE_COLLECTOR
environment variable, else Config::fee_collector, else the hard-coded
default address. -/
def resolveFeeCollector (c : Config) : String :=
  ((c.feeCollectorEnv).orElse (fun _ => c.feeCollectorCfg)).getD
    "0x55f3a93f544e01ce4378d25e927d7c493b863bd6"

/-- Config::default_token: the RELAYX_DEFAULT_TOKEN environment variable if
non-empty, else the defaultToken entry of the JSON config. -/
def Config.defaultToken (c : Config) : Option String :=
  (c.defaultTokenEnv).orElse (fun _ => c.defaultTokenCfg)

/-! ## Error taxonomy -/

/-- The JSON-RPC error values produced by the error constructors at the top
of src/rpc.rs. -/
inductive RpcError
  | invalidParams
  | invalidSignature
  | unsupportedPaymentToken
  | unsupportedCapability
  | simulationFailed
  | internalError
deriving DecidableEq, Repr

/-- JSON-RPC error codes attached to each error constructor in src/rpc.rs. -/
def RpcError.code : RpcError → Int
  | .invalidParams => -32602
  | .invalidSignature => -4201
  | .unsupportedPaymentToken => -4202
  | .unsupportedCapability => -4209
  | .simulationFailed => -4211
  | .internalError => -32603

/-! ## Chain-facing oracles and the simulator -/

/-- The executeWithRelayer function selector. Modelled from the spec: the
source reads it from resources/abi.json (not under src/); spec scenario
8.1 shows calldata beginning with 0xc3a4e9ca for this function. -/
def executeWithRelayerSelector : List Nat := [0xc3, 0xa4, 0xe9, 0xca]

/-- Outcomes of the two chain calls made by simulate_transaction. -/
structure SimEnv where
  ethCall : Except String Unit
  estimateGas : Except String Nat

/-- simulate_transaction from src/rpc.rs. The two provider calls are the
oracle fields of env; ABI loading is modelled as always yielding the
executeWithRelayer selector, and RPC-URL string parsing as always
succeeding. The gas estimate is a u64. -/
def simulate_transaction (cfg : Config) (env : SimEnv)
    (walletAddress calldata : String) (chainId : Nat) : Except String Nat :=
  if cfg.isSimulationDisabled then .ok 150000
  else if cfg.stubMode then .ok 150000
  else
    match cfg.rpcUrlForChain chainId with
    | none => .error "No RPC URL configured"
    | some _ =>
      match parseAddress walletAddress with
      | none => .error "Invalid wallet address"
      | some _ =>
        match parseHexBytes calldata with
        | none => .error "Invalid calldata format"
        | some bytes =>
          if bytes.length < 4 then .error "Calldata too short"
          else if bytes.take 4 ≠ executeWithRelayerSelector then
            .error "Transaction is not calling executeWithRelayer"
          else
            match env.ethCall with
            | .error e => .error ("Transaction simulation failed: " ++ e)
            | .ok _ =>
              match env.estimateGas with
              | .error e => .error ("Gas estimation failed: " ++ e)
              | .ok g => .ok (g % 2 ^ 64)

/-- fetch_gas_price from src/rpc.rs: fixed stub price in stub mode; error
when no RPC URL is configured for the chain; otherwise the provider's
u128 gas price formatted as 0x hex, falling back to 0x4a817c800 (20 gwei)
when the provider call fails. -/
def fetch_gas_price (cfg : Config) (providerGasPrice : Except Unit Nat)
    (chainId : Nat) : Except String String :=
  if cfg.stubMode then .ok "0x4a817c800"
  else
    match cfg.rpcUrlForChain chainId with
    | none => .error "No RPC URL configured"
    | some _ =>
      match providerGasPrice with
      | .ok gp => .ok (toHexString (gp % 2 ^ 128))
      | .error _ => .ok "0x4a817c800"

/-! ## Intake: single-chain path -/

/-- The zero address literal used throughout src/rpc.rs. -/
def zeroAddress : String := "0x0000000000000000000000000000000000000000"

/-- relayer_sendTransaction input (SendTransactionRequest in src/types.rs,
capabilities.payment flattened). -/
structure SendTransactionRequest where
  «to» : String
  data : String
  paymentType : String
  paymentToken : String
  paymentData : String
  chainId : String
  authorizationList : String
deriving DecidableEq, Repr

/-- validate_authorization_list from src/rpc.rs. An empty (trimmed) list is
accepted without decoding. The hex decode, RLP decode and per-entry
chain/target/recovery checks over a non-empty payload run in external
crates; their combined verdict is the oracle argument. Any failure maps
to the InvalidSignature error (-4201). -/
def validate_authorization_list (authorizationList : String)
    (outcome : Except Unit Unit) : Except RpcError Unit :=
  if strIsEmpty (rustTrim authorizationList) then .ok ()
  else
    match outcome with
    | .ok _ => .ok ()
    | .error _ => .error .invalidSignature

/-- The native payment arm of process_send_transaction (src/rpc.rs): token
must be the zero address, the gas price hex must parse as U256, the
required balance is the checked 256-bit product gas_price * sim_gas
(overflow reported as an internal error), and the wallet's on-chain
balance must cover it. -/
def validate_native_payment (cfg : Config) (token gasPriceHex : String)
    (simGas chainId : Nat) (balance : Except Unit Nat) : Except RpcError Unit :=
  if token ≠ zeroAddress then .error .invalidParams
  else
    match parse_hex_u256 gasPriceHex with
    | none => .error .internalError
    | some gp =>
      if gp * simGas ≥ 2 ^ 256 then .error .internalError
      else
        match cfg.rpcUrlForChain chainId with
        | none => .error .internalError
        | some _ =>
          match balance with
          | .error _ => .error .internalError
          | .ok bal =>
            if bal % 2 ^ 256 < gp * simGas then .error .invalidParams else .ok ()

/-- The erc20 payment arm of process_send_transaction (src/rpc.rs): the
token must be a 0x-prefixed 42-character string and must occur
case-insensitively in the configured supported-token set. -/
def validate_erc20_payment (cfg : Config) (token : String) : Except RpcError Unit :=
  if ¬ (starts0x token = true) ∨ strLen token ≠ 42 then .error .invalidParams
  else if cfg.supportedTokens.any (fun t => asciiLower t = asciiLower token) then .ok ()
  else .error .unsupportedPaymentToken

/-- Oracle inputs consumed by one single-chain intake call. -/
structure IntakeEnv where
  providerGasPrice : Except Unit Nat
  sim : SimEnv
  authOutcome : Except Unit Unit
  balance : Except Unit Nat
  broadcast : Except String String
  stubHash : String
  freshId : Nat
  now : Nat

/-- send_relay_transaction as seen from intake: a synthetic hash in stub
mode, otherwise the broadcast oracle (signing, nonce fetch and
transmission happen in external crates). -/
def send_relay (cfg : Config) (env : IntakeEnv) : Except String String :=
  if cfg.stubMode then .ok env.stubHash else env.broadcast

/-- The payment-variant dispatch of process_send_transaction: native, erc20,
sponsored, otherwise UnsupportedCapability. -/
def payment_dispatch (cfg : Config) (input : SendTransactionRequest)
    (chainId : Nat) (gasPrice : String) (simGas : Nat)
    (balance : Except Unit Nat) : Except RpcError Unit :=
  if input.paymentType = "native" then
    validate_native_payment cfg input.paymentToken gasPrice simGas chainId balance
  else if input.paymentType = "erc20" then
    validate_erc20_payment cfg input.paymentToken
  else if input.paymentType = "sponsored" then .ok ()
  else .error .unsupportedCapability

/-- The validation phase of process_send_transaction (src/rpc.rs lines up to
persistence): field presence, chain-id parse and support, wallet-address
parse, authorization list, gas-price fetch with 20 gwei fallback,
simulation (failing with SimulationFailed unless simulation is disabled,
in which case the 150000 default is used), then the payment variant.
Returns the parsed chain id, the gas limit and the gas price hex. -/
def intake_validate (cfg : Config) (env : IntakeEnv)
    (input : SendTransactionRequest) : Except RpcError (Nat × Nat × String) :=
  if strIsEmpty input.«to» then .error .invalidParams
  else if strIsEmpty input.data then .error .invalidParams
  else if strIsEmpty input.chainId then .error .invalidParams
  else if strIsEmpty (rustTrim input.paymentType) then .error .invalidParams
  else if strIsEmpty (rustTrim input.paymentToken) then .error .invalidParams
  else
    match parseDecU64 input.chainId with
    | none => .error .invalidParams
    | some chainId =>
      if ¬ cfg.isChainSupported chainId then .error .invalidParams
      else
        match parseAddress input.«to» with
        | none => .error .invalidParams
        | some _ =>
          match validate_authorization_list input.authorizationList env.authOutcome with
          | .error e => .error e
          | .ok _ =>
            let gasPrice :=
              match fetch_gas_price cfg env.providerGasPrice chainId with
              | .ok p => p
              | .error _ => "0x4a817c800"
            match simulate_transaction cfg env.sim input.«to» input.data chainId with
            | .error _ =>
              if cfg.isSimulationDisabled then
                match payment_dispatch cfg input chainId gasPrice 150000 env.balance with
                | .error e => .error e
                | .ok _ => .ok (chainId, 150000, gasPrice)
              else .error .simulationFailed
            | .ok simGas =>
              match payment_dispatch cfg input chainId gasPrice simGas env.balance with
              | .error e => .error e
              | .ok _ => .ok (chainId, simGas, gasPrice)

/-- The Pending record persisted by process_send_transaction before the
broadcast: fee collector as from, zero amount, simulated gas limit,
fetched gas price, no hash yet. -/
def mkIntakeRequest (cfg : Config) (env : IntakeEnv) (input : SendTransactionRequest)
    (chainId gasLimit : Nat) (gasPrice : String) : RelayerRequest :=
  { id := env.freshId
    from_address := resolveFeeCollector cfg
    to_address := input.«to»
    amount := "0"
    gas_limit := gasLimit
    gas_price := gasPrice
    data := some input.data
    nonce := 0
    chain_id := chainId
    transaction_hash := none
    status := .Pending
    created_at := env.now
    updated_at := env.now
    error_message := none }

/-- The post-persistence phase of process_send_transaction: broadcast, then
either record the transaction hash and move the record to Processing (plus
Completed in stub mode), or mark it Failed with the error message and
surface InternalError. -/
def intake_finalize (cfg : Config) (env : IntakeEnv) (chainIdStr : String)
    (store1 : Store) : Except RpcError (List (String × Nat)) × Store :=
  match send_relay cfg env with
  | .ok txHash =>
    let store2 := store1.updateRequestTxHash env.freshId txHash env.now
    let store3 := store2.updateRequestStatus env.freshId .Processing none env.now
    let store4 :=
      if cfg.stubMode then store3.updateRequestStatus env.freshId .Completed none env.now
      else store3
    (.ok [(chainIdStr, env.freshId)], store4)
  | .error e =>
    (.error .internalError, store1.updateRequestStatus env.freshId .Failed (some e) env.now)

/-- process_send_transaction from src/rpc.rs: run the validation phase; on
success persist a Pending record under a fresh id and run the broadcast
phase. The result rows carry (chainId string, id). -/
def process_send_transaction (cfg : Config) (env : IntakeEnv)
    (input : SendTransactionRequest) (storage : Store) :
    Except RpcError (List (String × Nat)) × Store :=
  match intake_validate cfg env input with
  | .error e => (.error e, storage)
  | .ok (chainId, gasLimit, gasPrice) =>
    intake_finalize cfg env input.chainId
      (storage.storeRequest (mkIntakeRequest cfg env input chainId gasLimit gasPrice))

/-! ## Intake: multichain path -/

/-- One transaction of a relayer_sendTransactionMultichain request
(MultichainTransaction in src/types.rs). -/
structure MultichainTransaction where
  «to» : String
  data : String
  chainId : String
  authorizationList : String
deriving DecidableEq, Repr

/-- relayer_sendTransactionMultichain input (payment capability flattened). -/
structure SendTransactionMultichainRequest where
  transactions : List MultichainTransaction
  paymentType : String
  paymentToken : String
  paymentChainId : String
deriving DecidableEq, Repr

/-- Oracle inputs consumed while processing one multichain transaction. -/
structure MultiTxEnv where
  providerGasPrice : Except Unit Nat
  sim : SimEnv
  broadcast : Except String String
  stubHash : String
  freshId : Nat
  now : Nat

/-- The whole-request payment-capability check of
process_send_transaction_multichain (src/rpc.rs): shape-only validation of
the payment variant (no supported-token or balance check here). -/
def validate_multichain_payment (input : SendTransactionMultichainRequest) :
    Except RpcError Unit :=
  if input.paymentType = "native" then
    if input.paymentToken ≠ zeroAddress then .error .invalidParams else .ok ()
  else if input.paymentType = "erc20" then
    if ¬ (starts0x input.paymentToken = true) ∨ strLen input.paymentToken ≠ 42 then
      .error .invalidParams
    else .ok ()
  else if input.paymentType = "sponsored" then .ok ()
  else .error .unsupportedCapability

/-- The Pending record persisted for one multichain transaction. -/
def mkMultiRequest (env : MultiTxEnv) (feeCollector : String)
    (tx : MultichainTransaction) (chainId gasLimit : Nat) (gasPrice : String) :
    RelayerRequest :=
  { id := env.freshId
    from_address := feeCollector
    to_address := tx.«to»
    amount := "0"
    gas_limit := gasLimit
    gas_price := gasPrice
    data := some tx.data
    nonce := 0
    chain_id := chainId
    transaction_hash := none
    status := .Pending
    created_at := env.now
    updated_at := env.now
    error_message := none }

/-- The post-persistence writes of one multichain transaction: broadcast
(synthetic hash in stub mode), then hash + Processing (+ Completed in
stub mode) on success or Failed with the message on failure; the failure
is recorded but not surfaced. -/
def multi_broadcast_writes (cfg : Config) (env : MultiTxEnv) (store1 : Store) : Store :=
  match (if cfg.stubMode then Except.ok env.stubHash else env.broadcast) with
  | .ok txHash =>
    let s := store1.updateRequestTxHash env.freshId txHash env.now
    let s := s.updateRequestStatus env.freshId .Processing none env.now
    if cfg.stubMode then s.updateRequestStatus env.freshId .Completed none env.now
    else s
  | .error e => store1.updateRequestStatus env.freshId .Failed (some e) env.now

/-- The per-transaction body of the multichain loop (src/rpc.rs): field
presence, chain parse and support, gas-price fetch with fallback,
simulation falling back to the 150000 default gas limit on ANY simulation
failure (whether or not simulation is disabled), persistence of a Pending
record, then the post-broadcast writes. Returns the result row and the
updated store. -/
def process_one_multichain_tx (cfg : Config) (env : MultiTxEnv)
    (feeCollector : String) (tx : MultichainTransaction) (store : Store) :
    Except RpcError ((String × Nat) × Store) :=
  if strIsEmpty tx.«to» then .error .invalidParams
  else if strIsEmpty tx.data then .error .invalidParams
  else if strIsEmpty tx.chainId then .error .invalidParams
  else
    match parseDecU64 tx.chainId with
    | none => .error .invalidParams
    | some chainId =>
      if ¬ cfg.isChainSupported chainId then .error .invalidParams
      else
        let gasPrice :=
          match fetch_gas_price cfg env.providerGasPrice chainId with
          | .ok p => p
          | .error _ => "0x4a817c800"
        let gasLimit :=
          match simulate_transaction cfg env.sim tx.«to» tx.data chainId with
          | .ok g => g
          | .error _ => 150000
        .ok ((tx.chainId, env.freshId),
          multi_broadcast_writes cfg env
            (store.storeRequest (mkMultiRequest env feeCollector tx chainId gasLimit gasPrice)))

/-- The sequential loop of process_send_transaction_multichain. A
per-transaction validation error aborts the whole call but keeps the
records persisted by earlier iterations. -/
def multichain_go (cfg : Config) (feeCollector : String) :
    List (MultichainTransaction × MultiTxEnv) → Store → List (String × Nat) →
    Except RpcError (List (String × Nat)) × Store
  | [], store, acc => (.ok acc, store)
  | (tx, env) :: rest, store, acc =>
    match process_one_multichain_tx cfg env feeCollector tx store with
    | .error e => (.error e, store)
    | .ok (row, store1) => multichain_go cfg feeCollector rest store1 (acc ++ [row])

/-- process_send_transaction_multichain from src/rpc.rs: at least one
transaction, payment chain id present / parseable / supported, payment
capability shape, then the sequential per-transaction loop. The oracle
inputs of transaction i are envs[i] (zipped). -/
def process_send_transaction_multichain (cfg : Config) (envs : List MultiTxEnv)
    (input : SendTransactionMultichainRequest) (storage : Store) :
    Except RpcError (List (String × Nat)) × Store :=
  if input.transactions.isEmpty then (.error .invalidParams, storage)
  else if strIsEmpty input.paymentChainId then (.error .invalidParams, storage)
  else
    match parseDecU64 input.paymentChainId with
    | none => (.error .invalidParams, storage)
    | some paymentChainId =>
      if ¬ cfg.isChainSupported paymentChainId then (.error .invalidParams, storage)
      else
        match validate_multichain_payment input with
        | .error e => (.error e, storage)
        | .ok _ =>
          multichain_go cfg (resolveFeeCollector cfg) (input.transactions.zip envs) storage []

/-! ## Status query -/

/-- One response row of relayer_getStatus (StatusResult in src/types.rs;
receipts and onchainFailure are always left empty by the source, and the
off-chain failure entries carry only their message). -/
structure StatusResult where
  version : String
  id : String
  status : Nat
  resubmissions : List Resubmission
  offchainFailure : List String
deriving DecidableEq, Repr

/-- process_get_status from src/rpc.rs: one row per input id in input order.
An unparsable id gives 400 with an invalid-id-format failure entry, an
absent id gives 404, a present record maps Pending/Processing to 201,
Completed to 200 and Failed to 500, carries its error_message as the sole
off-chain failure entry, and attaches all stored resubmissions. UUID
parsing happens in the external uuid crate and is passed as parseId. -/
def status_row (store : Store) (parseId : String → Option Nat)
    (idStr : String) : StatusResult :=
  match parseId idStr with
  | none =>
    { version := "2.0.0", id := idStr, status := 400, resubmissions := [],
      offchainFailure := ["invalid id format"] }
  | some uuid =>
    match store.getRequest uuid with
    | none =>
      { version := "2.0.0", id := idStr, status := 404, resubmissions := [],
        offchainFailure := [] }
    | some req =>
      { version := "2.0.0", id := idStr,
        status :=
          match req.status with
          | .Pending => 201
          | .Processing => 201
          | .Completed => 200
          | .Failed => 500,
        resubmissions := store.getResubmissions uuid,
        offchainFailure :=
          match req.error_message with
          | some m => [m]
          | none => [] }

def process_get_status (store : Store) (parseId : String → Option Nat)
    (ids : List String) : List StatusResult :=
  ids.map (status_row store parseId)

/-! ## Capabilities -/

/-- One payment capability entry of the relayer_getCapabilities response
(the Payment union in src/types.rs). -/
inductive PaymentEntry
  | native (token : String)
  | erc20 (token : String)
  | sponsored
deriving DecidableEq, Repr

/-- process_get_capabilities from src/rpc.rs: one erc20 entry per supported
token; when none are configured a single erc20 entry with the configured
default token or the hard-coded USDC fallback; then always one native
entry with the zero-address token and one sponsored entry. -/
def process_get_capabilities (cfg : Config) : List PaymentEntry :=
  let payments := cfg.supportedTokens.map PaymentEntry.erc20
  let payments :=
    if payments.isEmpty then
      [PaymentEntry.erc20
        ((cfg.defaultToken).getD "0x036CbD53842c5426634e7929541eC2318f3dCF7e")]
    else payments
  payments ++ [PaymentEntry.native zeroAddress, PaymentEntry.sponsored]

/-! ## Background monitor -/

/-- Outcome of the receipt lookup inside fetch_and_update_receipt: a receipt
with its success bit, no receipt yet, or a transport/decoding failure
(both of the latter leave the record untouched and are reported as
absent). -/
inductive ReceiptFetch
  | found (success : Bool)
  | notMined
  | fetchError
deriving DecidableEq, Repr

/-- Oracle inputs consumed by the monitor for one snapshot record. -/
structure MonitorRecEnv where
  receipt : ReceiptFetch
  gasPrice : Except Unit Nat
  broadcast : Except String String
  stubHash : String
  now : Nat

/-- A broadcast attempt issued by the monitor (arguments of
send_relay_transaction at the resubmission site). -/
structure BroadcastCall where
  «to» : String
  data : String
  chainId : Nat
  gasLimit : Nat
  gasPrice : String
deriving DecidableEq, Repr

/-- fetch_and_update_receipt from src/rpc.rs: stub mode completes the
record immediately; otherwise a found receipt moves the record to
Completed, a failed receipt to Failed with the onchain-revert message, and
an absent receipt (or a missing RPC URL, malformed hash or fetch error)
reports none without touching the store. -/
def fetch_and_update_receipt (cfg : Config) (env : MonitorRecEnv)
    (store : Store) (req : RelayerRequest) : Store × Option RequestStatus :=
  if cfg.stubMode then
    (store.updateRequestStatus req.id .Completed none env.now, some .Completed)
  else
    match cfg.rpcUrlForChain req.chain_id with
    | none => (store, none)
    | some _ =>
      match env.receipt with
      | .found true =>
        (store.updateRequestStatus req.id .Completed none env.now, some .Completed)
      | .found false =>
        (store.updateRequestStatus req.id .Failed (some "onchain revert") env.now,
          some .Failed)
      | .notMined => (store, none)
      | .fetchError => (store, none)

/-- One snapshot record of the monitor loop body in RpcServer::start
(src/rpc.rs): only records in Pending or Processing that carry a
transaction hash are acted on; if the receipt settles the record, stop;
otherwise fetch the current chain gas price, bump it by 20 percent, and
rebroadcast with the record's stored to/data/gas_limit, recording the new
hash plus a status-201 resubmission and Processing on success or Failed
with the message on failure. Also returns the broadcast attempts made. -/
def monitor_process_record (cfg : Config) (env : MonitorRecEnv)
    (store : Store) (req : RelayerRequest) : Store × List BroadcastCall :=
  if req.status = .Pending ∨ req.status = .Processing then
    match req.transaction_hash with
    | none => (store, [])
    | some _ =>
      match fetch_and_update_receipt cfg env store req with
      | (store1, some _) => (store1, [])
      | (store1, none) =>
        match fetch_gas_price cfg env.gasPrice req.chain_id with
        | .error _ => (store1, [])
        | .ok priceHex =>
          let bumped := bump_gas_price_hex priceHex 20
          match req.data with
          | none => (store1, [])
          | some d =>
            let call : BroadcastCall :=
              { «to» := req.to_address, data := d, chainId := req.chain_id,
                gasLimit := req.gas_limit, gasPrice := bumped }
            match (if cfg.stubMode then Except.ok env.stubHash else env.broadcast) with
            | .ok newHash =>
              let s := store1.updateRequestTxHash req.id newHash env.now
              let s := s.addResubmission req.id
                { status := 201, transaction_hash := newHash,
                  chain_id := toString req.chain_id }
              let s := s.updateRequestStatus req.id .Processing none env.now
              (s, [call])
            | .error e =>
              (store1.updateRequestStatus req.id .Failed (some e) env.now, [call])
  else (store, [])

/-- The per-tick fold over the snapshot, threading the store. -/
def monitor_go (cfg : Config) :
    List (RelayerRequest × MonitorRecEnv) → Store → Store × List BroadcastCall
  | [], store => (store, [])
  | (req, env) :: rest, store =>
    let step := monitor_process_record cfg env store req
    let next := monitor_go cfg rest step.1
    (next.1, step.2 ++ next.2)

/-- One tick of the background monitor in RpcServer::start: snapshot the
first 1000 request records and process each in turn; the oracle inputs of
snapshot record i are envs[i] (zipped). -/
def monitor_tick (cfg : Config) (envs : List MonitorRecEnv) (store : Store) :
    Store × List BroadcastCall :=
  monitor_go cfg ((store.getRequests (some 1000)).zip envs) store

/-! ## The system as a transition relation -/

/-- One atomic operation of the relayer system: a single-chain intake call,
a multichain intake call, or one monitor tick, each carrying its oracle
inputs. -/
inductive Op
  | intake (env : IntakeEnv) (input : SendTransactionRequest)
  | intakeMulti (envs : List MultiTxEnv) (input : SendTransactionMultichainRequest)
  | monitor (envs : List MonitorRecEnv)

/-- Effect of one operation on the store. -/
def applyOp (cfg : Config) : Op → Store → Store
  | .intake env input, s => (process_send_transaction cfg env input s).2
  | .intakeMulti envs input, s => (process_send_transaction_multichain cfg envs input s).2
  | .monitor envs, s => (monitor_tick cfg envs s).1

/-- Freshness of the ids drawn by Uuid::new_v4 during an operation: a
freshly generated id is not already a key of the store. -/
def opFresh : Op → Store → Bool
  | .intake env _, s => (s.getRequest env.freshId).isNone
  | .intakeMulti envs _, s => envs.all (fun e => (s.getRequest e.freshId).isNone)
  | .monitor _, _ => true

/-- Run a sequence of operations. -/
def applyOps (cfg : Config) : List Op → Store → Store
  | [], s => s
  | op :: rest, s => applyOps cfg rest (applyOp cfg op s)

/-- Every operation of the sequence draws fresh ids in the state where it
runs. -/
def opsOK (cfg : Config) : List Op → Store → Bool
  | [], _ => true
  | op :: rest, s => opFresh op s && opsOK cfg rest (applyOp cfg op s)

/-! ## Concrete fixtures used by witnesses and counterexamples -/

/-- A minimal configuration: chain 1 supported, simulation enabled, stub
mode off, no tokens configured. -/
def cfgFix : Config :=
  { rpcUrls := [(1, "http://localhost:8545")], feeCollectorEnv := none,
    feeCollectorCfg := none, defaultTokenEnv := none, defaultTokenCfg := none,
    supportedTokens := [], disableSimulation := false, stubMode := false }

/-- A Processing request with a broadcast hash and stored gas price 0x1000. -/
def reqFix : RelayerRequest :=
  { id := 1, from_address := "0x55f3a93f544e01ce4378d25e927d7c493b863bd6",
    to_address := "0x00112233445566778899aabbccddeeff00112233", amount := "0",
    gas_limit := 21000, gas_price := "0x1000", data := some "0xc3a4e9ca", nonce := 0,
    chain_id := 1, transaction_hash := some "0xaaaa", status := .Processing,
    created_at := 0, updated_at := 0, error_message := none }

/-- The same record already Completed. -/
def reqFixDone : RelayerRequest := { reqFix with status := .Completed }

/-- Monitor oracle: no receipt yet, current chain gas price 16 wei,
rebroadcast succeeds with hash 0xbbbb. -/
def monEnvFix : MonitorRecEnv :=
  { receipt := .notMined, gasPrice := .ok 16, broadcast := .ok "0xbbbb",
    stubHash := "0xstub", now := 3 }

/-- Intake oracle: chain gas price 16 wei, simulation succeeds with 90000
gas, broadcast succeeds, fresh id 2. -/
def intakeEnvFix : IntakeEnv :=
  { providerGasPrice := .ok 16, sim := { ethCall := .ok (), estimateGas := .ok 90000 },
    authOutcome := .ok (), balance := .ok 1000000000, broadcast := .ok "0xcccc",
    stubHash := "0xstub", freshId := 2, now := 5 }

/-- A sponsored single-chain submission on chain 1, selector-only calldata. -/
def inputFix : SendTransactionRequest :=
  { «to» := "0x00112233445566778899aabbccddeeff00112233", data := "0xc3a4e9ca",
    paymentType := "sponsored",
    paymentToken := "0x1111111111111111111111111111111111111111",
    paymentData := "", chainId := "1", authorizationList := "" }

/-- Multichain oracle for one transaction: broadcast succeeds, fresh id 7. -/
def multiEnvFix : MultiTxEnv :=
  { providerGasPrice := .ok 16, sim := { ethCall := .ok (), estimateGas := .ok 90000 },
    broadcast := .ok "0xdddd", stubHash := "0xstub", freshId := 7, now := 3 }

/-- A multichain transaction carrying 1-byte calldata, which the simulator
rejects as too short. -/
def multiTxFix : MultichainTransaction :=
  { «to» := "0x00112233445566778899aabbccddeeff00112233",
    data := "0x12", chainId := "1", authorizationList := "" }

/-- A multichain request whose only transaction is multiTxFix. -/
def multiInputFix : SendTransactionMultichainRequest :=
  { transactions := [multiTxFix],
    paymentType := "sponsored",
    paymentToken := "0x1111111111111111111111111111111111111111",
    paymentChainId := "1" }

/-- The intake oracle with a failing broadcast. -/
def intakeEnvFailFix : IntakeEnv :=
  { intakeEnvFix with broadcast := .error "send failed" }

/-- inputFix redirected to an unsupported chain. -/
def inputBadChainFix : SendTransactionRequest :=
  { inputFix with chainId := "2" }

/-- The broadcast attempt the monitor makes for reqFix under monEnvFix:
current price 16 wei bumped by 20 percent to 19 wei (0x13). -/
def callFix : BroadcastCall :=
  { «to» := "0x00112233445566778899aabbccddeeff00112233", data := "0xc3a4e9ca",
    chainId := 1, gasLimit := 21000, gasPrice := "0x13" }

/-- One monitor tick followed by one intake call. -/
def opsFix : List Op := [Op.monitor [monEnvFix], Op.intake intakeEnvFix inputFix]

/-- A store holding one Completed request. -/
def storeFixDone : Store := Store.mk [(1, reqFixDone)] []

/-- reqFix marked Failed with an error message, for the status query. -/
def reqFixFailed : RelayerRequest :=
  { reqFix with status := .Failed, error_message := some "boom" }

/-- A stored resubmission entry for request 1. -/
def resubFix : Resubmission :=
  { status := 201, transaction_hash := "0xbbbb", chain_id := "1" }

/-- A store holding the failed request and its resubmission entry. -/
def storeFixStatus : Store :=
  Store.mk [(1, reqFixFailed)] [((1, "1", "0xbbbb"), resubFix)]

/-- A UUID parser accepting the two literals id1 and id9. -/
def parseFix : String → Option Nat :=
  fun s => if s = "id1" then some 1 else if s = "id9" then some 9 else none

/-! ## Association-list lemmas -/

theorem find?_putAssoc_self {α β : Type} [DecidableEq α] (l : List (α × β)) (k : α) (v : β) :
    (putAssoc l k v).find? (fun p => p.1 = k) = some (k, v) := by
  induction l with
  | nil => simp [putAssoc]
  | cons hd tl ih =>
    by_cases h : hd.1 = k
    · simp [putAssoc, h]
    · simp only [putAssoc]
      rw [if_neg h]
      rw [List.find?_cons_of_neg _ (by simp [h])]
      exact ih

theorem find?_putAssoc_ne {α β : Type} [DecidableEq α] (l : List (α × β)) (k k' : α) (v : β)
    (hne : k' ≠ k) :
    (putAssoc l k v).find? (fun p => p.1 = k') = l.find? (fun p => p.1 = k') := by
  induction l with
  | nil => simp [putAssoc, Ne.symm hne]
  | cons hd tl ih =>
    by_cases h : hd.1 = k
    · simp only [putAssoc]
      rw [if_pos h]
      rw [List.find?_cons_of_neg _ (by simp [Ne.symm hne]),
        List.find?_cons_of_neg _ (by simp [h, Ne.symm hne])]
    · simp only [putAssoc]
      rw [if_neg h]
      by_cases h2 : hd.1 = k'
      · rw [List.find?_cons_of_pos _ (by simp [h2]), List.find?_cons_of_pos _ (by simp [h2])]
      · rw [List.find?_cons_of_neg _ (by simp [h2]), List.find?_cons_of_neg _ (by simp [h2])]
        exact ih

theorem putAssoc_putAssoc {α β : Type} [DecidableEq α] (l : List (α × β)) (k : α) (v1 v2 : β) :
    putAssoc (putAssoc l k v1) k v2 = putAssoc l k v2 := by
  induction l with
  | nil => simp [putAssoc]
  | cons hd tl ih =>
    by_cases h : hd.1 = k
    · simp [putAssoc, h]
    · simp [putAssoc, h, ih]

theorem mem_putAssoc {α β : Type} [DecidableEq α] {l : List (α × β)} {k : α} {v : β}
    {p : α × β} (hp : p ∈ putAssoc l k v) : p ∈ l ∨ p = (k, v) := by
  induction l with
  | nil => simpa [putAssoc] using hp
  | cons hd tl ih =>
    by_cases h : hd.1 = k
    · simp only [putAssoc, if_pos h, List.mem_cons] at hp
      rcases hp with h1 | h2
      · right; exact h1
      · left; exact List.mem_cons_of_mem _ h2
    · simp only [putAssoc, if_neg h, List.mem_cons] at hp
      rcases hp with h1 | h2
      · left; exact h1 ▸ List.mem_cons_self _ _
      · rcases ih h2 with h3 | h3
        · left; exact List.mem_cons_of_mem _ h3
        · right; exact h3

theorem mem_keys_putAssoc {α β : Type} [DecidableEq α] {l : List (α × β)} {k x : α} {v : β} :
    x ∈ (putAssoc l k v).map Prod.fst ↔ x ∈ l.map Prod.fst ∨ x = k := by
  induction l with
  | nil => simp [putAssoc]
  | cons hd tl ih =>
    by_cases h : hd.1 = k
    · subst h
      simp [putAssoc]
      tauto
    · simp only [putAssoc, if_neg h, List.map_cons, List.mem_cons, ih]
      tauto

theorem nodup_keys_putAssoc {α β : Type} [DecidableEq α] {l : List (α × β)} {k : α} {v : β}
    (h : (l.map Prod.fst).Nodup) : ((putAssoc l k v).map Prod.fst).Nodup := by
  induction l with
  | nil => simp [putAssoc]
  | cons hd tl ih =>
    simp only [List.map_cons, List.nodup_cons] at h
    by_cases hk : hd.1 = k
    · simp only [putAssoc, if_pos hk, List.map_cons, List.nodup_cons]
      exact ⟨hk ▸ h.1, h.2⟩
    · simp only [putAssoc, if_neg hk, List.map_cons, List.nodup_cons]
      refine ⟨?_, ih h.2⟩
      intro hmem
      rcases mem_keys_putAssoc.mp hmem with h1 | h1
      · exact h.1 h1
      · exact hk h1

/-! ## Store lemmas -/

theorem getRequest_storeRequest_self (s : Store) (r : RelayerRequest) :
    (s.storeRequest r).getRequest r.id = some r := by
  simp [Store.storeRequest, Store.getRequest, find?_putAssoc_self]

theorem getRequest_storeRequest_ne (s : Store) (r : RelayerRequest) (id : Nat)
    (h : id ≠ r.id) : (s.storeRequest r).getRequest id = s.getRequest id := by
  simp [Store.storeRequest, Store.getRequest, find?_putAssoc_ne _ _ _ _ h]

theorem getRequest_eq_some_id {s : Store} {k : Nat} {r : RelayerRequest}
    (hwf : s.WF) (h : s.getRequest k = some r) : r.id = k := by
  simp only [Store.getRequest, Option.map_eq_some'] at h
  obtain ⟨p, hp, rfl⟩ := h
  have hpk : p.1 = k := by
    have := List.find?_some hp
    simpa using this
  have hmem := List.mem_of_find?_eq_some hp
  have := hwf.1 p hmem
  omega

theorem WF_storeRequest {s : Store} (r : RelayerRequest) (hwf : s.WF) :
    (s.storeRequest r).WF := by
  constructor
  · intro p hp
    rcases mem_putAssoc hp with h | h
    · exact hwf.1 p h
    · subst h; rfl
  · exact nodup_keys_putAssoc hwf.2

theorem getRequest_updateRequestStatus_ne {s : Store} {k id : Nat}
    (st : RequestStatus) (err : Option String) (now : Nat)
    (hwf : s.WF) (h : id ≠ k) :
    (s.updateRequestStatus k st err now).getRequest id = s.getRequest id := by
  unfold Store.updateRequestStatus
  cases hk : s.getRequest k with
  | none => rfl
  | some r =>
    have hid := getRequest_eq_some_id hwf hk
    exact getRequest_storeRequest_ne _ _ _ (by simp [hid]; omega)

theorem WF_updateRequestStatus {s : Store} (k : Nat) (st : RequestStatus)
    (err : Option String) (now : Nat) (hwf : s.WF) :
    (s.updateRequestStatus k st err now).WF := by
  unfold Store.updateRequestStatus
  cases hk : s.getRequest k with
  | none => exact hwf
  | some r => exact WF_storeRequest _ hwf

theorem getRequest_updateRequestTxHash_ne {s : Store} {k id : Nat}
    (txHash : String) (now : Nat) (hwf : s.WF) (h : id ≠ k) :
    (s.updateRequestTxHash k txHash now).getRequest id = s.getRequest id := by
  unfold Store.updateRequestTxHash
  cases hk : s.getRequest k with
  | none => rfl
  | some r =>
    have hid := getRequest_eq_some_id hwf hk
    exact getRequest_storeRequest_ne _ _ _ (by simp [hid]; omega)

theorem WF_updateRequestTxHash {s : Store} (k : Nat) (txHash : String) (now : Nat)
    (hwf : s.WF) : (s.updateRequestTxHash k txHash now).WF := by
  unfold Store.updateRequestTxHash
  cases hk : s.getRequest k with
  | none => exact hwf
  | some r => exact WF_storeRequest _ hwf

theorem getRequest_addResubmission (s : Store) (k : Nat) (resub : Resubmission)
    (id : Nat) : (s.addResubmission k resub).getRequest id = s.getRequest id := rfl

theorem WF_addResubmission {s : Store} (k : Nat) (resub : Resubmission)
    (hwf : s.WF) : (s.addResubmission k resub).WF := hwf

theorem find?_eq_of_mem_nodup {α β : Type} [DecidableEq α] {l : List (α × β)} {p : α × β}
    (hnd : (l.map Prod.fst).Nodup) (hp : p ∈ l) :
    l.find? (fun q => q.1 = p.1) = some p := by
  induction l with
  | nil => cases hp
  | cons hd tl ih =>
    simp only [List.map_cons, List.nodup_cons] at hnd
    rcases List.mem_cons.mp hp with rfl | hmem
    · rw [List.find?_cons_of_pos _ (by simp)]
    · have hne : hd.1 ≠ p.1 := by
        intro he
        exact hnd.1 (he ▸ List.mem_map_of_mem Prod.fst hmem)
      rw [List.find?_cons_of_neg _ (by simp [hne])]
      exact ih hnd.2 hmem

/-! ## Write-locality of the composite operations -/

theorem intake_finalize_locality (cfg : Config) (env : IntakeEnv) (chainIdStr : String)
    {s : Store} {id : Nat} (hwf : s.WF) (hne : id ≠ env.freshId) :
    (intake_finalize cfg env chainIdStr s).2.getRequest id = s.getRequest id ∧
      (intake_finalize cfg env chainIdStr s).2.WF := by
  unfold intake_finalize
  cases hsr : send_relay cfg env with
  | ok txHash =>
    dsimp only
    have hwf2 := WF_updateRequestTxHash env.freshId txHash env.now hwf
    have hg2 := getRequest_updateRequestTxHash_ne txHash env.now hwf hne
    have hwf3 := WF_updateRequestStatus env.freshId RequestStatus.Processing none env.now hwf2
    have hg3 := getRequest_updateRequestStatus_ne RequestStatus.Processing none env.now hwf2 hne
    by_cases hstub : cfg.stubMode = true
    · rw [if_pos hstub]
      exact ⟨by rw [getRequest_updateRequestStatus_ne _ _ _ hwf3 hne, hg3, hg2],
        WF_updateRequestStatus _ _ _ _ hwf3⟩
    · rw [if_neg hstub]
      exact ⟨by rw [hg3, hg2], hwf3⟩
  | error e =>
    dsimp only
    exact ⟨getRequest_updateRequestStatus_ne _ _ _ hwf hne, WF_updateRequestStatus _ _ _ _ hwf⟩

theorem process_send_transaction_locality (cfg : Config) (env : IntakeEnv)
    (input : SendTransactionRequest) {s : Store} {id : Nat}
    (hwf : s.WF) (hne : id ≠ env.freshId) :
    (process_send_transaction cfg env input s).2.getRequest id = s.getRequest id ∧
      (process_send_transaction cfg env input s).2.WF := by
  unfold process_send_transaction
  cases hval : intake_validate cfg env input with
  | error e => exact ⟨rfl, hwf⟩
  | ok v =>
    obtain ⟨chainId, gasLimit, gasPrice⟩ := v
    dsimp only
    have hwf1 := WF_storeRequest (mkIntakeRequest cfg env input chainId gasLimit gasPrice) hwf
    have hg1 := getRequest_storeRequest_ne s
      (mkIntakeRequest cfg env input chainId gasLimit gasPrice) id (by simpa [mkIntakeRequest] using hne)
    obtain ⟨hg, hw⟩ := intake_finalize_locality cfg env input.chainId hwf1 hne
    exact ⟨by rw [hg, hg1], hw⟩

theorem multi_broadcast_writes_locality (cfg : Config) (env : MultiTxEnv)
    {s : Store} {id : Nat} (hwf : s.WF) (hne : id ≠ env.freshId) :
    (multi_broadcast_writes cfg env s).getRequest id = s.getRequest id ∧
      (multi_broadcast_writes cfg env s).WF := by
  unfold multi_broadcast_writes
  cases hb : (if cfg.stubMode then Except.ok env.stubHash else env.broadcast) with
  | ok txHash =>
    dsimp only
    have hwf2 := WF_updateRequestTxHash env.freshId txHash env.now hwf
    have hg2 := getRequest_updateRequestTxHash_ne txHash env.now hwf hne
    have hwf3 := WF_updateRequestStatus env.freshId RequestStatus.Processing none env.now hwf2
    have hg3 := getRequest_updateRequestStatus_ne RequestStatus.Processing none env.now hwf2 hne
    by_cases hstub : cfg.stubMode = true
    · rw [if_pos hstub]
      exact ⟨by rw [getRequest_updateRequestStatus_ne _ _ _ hwf3 hne, hg3, hg2],
        WF_updateRequestStatus _ _ _ _ hwf3⟩
    · rw [if_neg hstub]
      exact ⟨by rw [hg3, hg2], hwf3⟩
  | error e =>
    dsimp only
    exact ⟨getRequest_updateRequestStatus_ne _ _ _ hwf hne, WF_updateRequestStatus _ _ _ _ hwf⟩

theorem process_one_multichain_tx_locality (cfg : Config) (env : MultiTxEnv)
    (feeCollector : String) (tx : MultichainTransaction) {s : Store} {id : Nat}
    (hwf : s.WF) (hne : id ≠ env.freshId) {row : String × Nat} {store2 : Store}
    (hok : process_one_multichain_tx cfg env feeCollector tx s = .ok (row, store2)) :
    store2.getRequest id = s.getRequest id ∧ store2.WF := by
  unfold process_one_multichain_tx at hok
  split at hok
  · cases hok
  split at hok
  · cases hok
  split at hok
  · cases hok
  split at hok
  · cases hok
  split at hok
  · cases hok
  rename_i chainId hchain hsup
  dsimp only at hok
  simp only [Except.ok.injEq, Prod.mk.injEq] at hok
  obtain ⟨-, hst⟩ := hok
  subst hst
  have key : ∀ (r : RelayerRequest), r.id = env.freshId →
      (multi_broadcast_writes cfg env (s.storeRequest r)).getRequest id = s.getRequest id ∧
        (multi_broadcast_writes cfg env (s.storeRequest r)).WF := by
    intro r hr
    have hwf1 := WF_storeRequest r hwf
    have hg1 := getRequest_storeRequest_ne s r id (by rw [hr]; exact hne)
    obtain ⟨hg, hw⟩ := multi_broadcast_writes_locality cfg env hwf1 hne
    exact ⟨by rw [hg, hg1], hw⟩
  exact key _ rfl

theorem fetch_and_update_receipt_locality (cfg : Config) (env : MonitorRecEnv)
    {s : Store} (req : RelayerRequest) {id : Nat} (hwf : s.WF) (hne : id ≠ req.id) :
    (fetch_and_update_receipt cfg env s req).1.getRequest id = s.getRequest id ∧
      (fetch_and_update_receipt cfg env s req).1.WF := by
  unfold fetch_and_update_receipt
  by_cases hstub : cfg.stubMode
  · simp only [hstub, if_true]
    exact ⟨getRequest_updateRequestStatus_ne _ _ _ hwf hne,
      WF_updateRequestStatus _ _ _ _ hwf⟩
  · simp only [hstub, if_false]
    cases cfg.rpcUrlForChain req.chain_id with
    | none => exact ⟨rfl, hwf⟩
    | some u =>
      cases env.receipt with
      | found success =>
        cases success
        · exact ⟨getRequest_updateRequestStatus_ne _ _ _ hwf hne,
            WF_updateRequestStatus _ _ _ _ hwf⟩
        · exact ⟨getRequest_updateRequestStatus_ne _ _ _ hwf hne,
            WF_updateRequestStatus _ _ _ _ hwf⟩
      | notMined => exact ⟨rfl, hwf⟩
      | fetchError => exact ⟨rfl, hwf⟩

theorem monitor_process_record_locality (cfg : Config) (env : MonitorRecEnv)
    {s : Store} (req : RelayerRequest) {id : Nat} (hwf : s.WF) (hne : id ≠ req.id) :
    (monitor_process_record cfg env s req).1.getRequest id = s.getRequest id ∧
      (monitor_process_record cfg env s req).1.WF := by
  unfold monitor_process_record
  by_cases hact : req.status = RequestStatus.Pending ∨ req.status = RequestStatus.Processing
  · simp only [hact, if_true]
    cases req.transaction_hash with
    | none => exact ⟨rfl, hwf⟩
    | some txh =>
      simp only
      obtain ⟨hg1, hwf1⟩ := fetch_and_update_receipt_locality cfg env req hwf hne
      rcases hfr : fetch_and_update_receipt cfg env s req with ⟨store1, os⟩
      rw [hfr] at hg1 hwf1
      cases os with
      | some st => exact ⟨hg1, hwf1⟩
      | none =>
        cases fetch_gas_price cfg env.gasPrice req.chain_id with
        | error e => exact ⟨hg1, hwf1⟩
        | ok priceHex =>
          simp only
          cases req.data with
          | none => exact ⟨hg1, hwf1⟩
          | some d =>
            simp only
            cases hb : (if cfg.stubMode then Except.ok env.stubHash else env.broadcast) with
            | ok newHash =>
              have hwf2 := WF_updateRequestTxHash req.id newHash env.now hwf1
              have hg2 := getRequest_updateRequestTxHash_ne newHash env.now hwf1 hne
              have hwf3 := WF_addResubmission req.id
                { status := 201, transaction_hash := newHash,
                  chain_id := toString req.chain_id } hwf2
              have hwf4 := WF_updateRequestStatus req.id RequestStatus.Processing none env.now hwf3
              have hg4 := getRequest_updateRequestStatus_ne
                RequestStatus.Processing none env.now hwf3 hne
              exact ⟨by rw [hg4, getRequest_addResubmission, hg2, hg1], hwf4⟩
            | error e =>
              have hwf2 := WF_updateRequestStatus req.id RequestStatus.Failed (some e) env.now hwf1
              have hg2 := getRequest_updateRequestStatus_ne
                RequestStatus.Failed (some e) env.now hwf1 hne
              exact ⟨by rw [hg2, hg1], hwf2⟩
  · rw [if_neg hact]
    exact ⟨rfl, hwf⟩

theorem monitor_process_record_skip (cfg : Config) (env : MonitorRecEnv)
    (s : Store) (req : RelayerRequest)
    (h1 : req.status ≠ RequestStatus.Pending) (h2 : req.status ≠ RequestStatus.Processing) :
    monitor_process_record cfg env s req = (s, []) := by
  unfold monitor_process_record
  rw [if_neg (by simp [h1, h2])]

/-! ## Terminal-state absorption -/

theorem multichain_go_preserves (cfg : Config) (fc : String) {id : Nat} {r : RelayerRequest} :
    ∀ (L : List (MultichainTransaction × MultiTxEnv)) (s : Store) (acc : List (String × Nat)),
      s.WF → s.getRequest id = some r → (∀ q ∈ L, q.2.freshId ≠ id) →
      (multichain_go cfg fc L s acc).2.getRequest id = some r ∧
        (multichain_go cfg fc L s acc).2.WF := by
  intro L
  induction L with
  | nil => intro s acc hwf hget _; exact ⟨hget, hwf⟩
  | cons q rest ih =>
    obtain ⟨tx, env⟩ := q
    intro s acc hwf hget hL
    unfold multichain_go
    cases hres : process_one_multichain_tx cfg env fc tx s with
    | error e => exact ⟨hget, hwf⟩
    | ok p =>
      obtain ⟨row, store1⟩ := p
      have hne : id ≠ env.freshId := by
        intro h
        exact hL (tx, env) (List.mem_cons_self _ _) h.symm
      obtain ⟨hg, hw⟩ := process_one_multichain_tx_locality cfg env fc tx hwf hne hres
      exact ih store1 (acc ++ [row]) hw (by rw [hg]; exact hget)
        (fun q hq => hL q (List.mem_cons_of_mem _ hq))

theorem monitor_go_preserves (cfg : Config) {id : Nat} {r : RelayerRequest} :
    ∀ (L : List (RelayerRequest × MonitorRecEnv)) (s : Store),
      s.WF → s.getRequest id = some r →
      (∀ q ∈ L, q.1.id = id →
        (q.1.status = RequestStatus.Completed ∨ q.1.status = RequestStatus.Failed)) →
      (monitor_go cfg L s).1.getRequest id = some r ∧ (monitor_go cfg L s).1.WF := by
  intro L
  induction L with
  | nil => intro s hwf hget _; exact ⟨hget, hwf⟩
  | cons q rest ih =>
    obtain ⟨req, env⟩ := q
    intro s hwf hget hL
    unfold monitor_go
    dsimp only
    by_cases hq : req.id = id
    · have hterm2 : req.status = RequestStatus.Completed ∨ req.status = RequestStatus.Failed :=
        hL (req, env) (List.mem_cons_self _ _) hq
      have hskip := monitor_process_record_skip cfg env s req
        (by rcases hterm2 with h | h <;> simp [h])
        (by rcases hterm2 with h | h <;> simp [h])
      rw [hskip]
      exact ih s hwf hget (fun q hqm => hL q (List.mem_cons_of_mem _ hqm))
    · have hne : id ≠ req.id := fun h => hq h.symm
      obtain ⟨hg, hw⟩ := monitor_process_record_locality cfg env req hwf hne
      obtain ⟨hg2, hw2⟩ := ih (monitor_process_record cfg env s req).1 hw
        (by rw [hg]; exact hget) (fun q hqm => hL q (List.mem_cons_of_mem _ hqm))
      exact ⟨hg2, hw2⟩

theorem snapshot_record_eq {s : Store} {id : Nat} {r q : RelayerRequest}
    (hwf : s.WF) (hget : s.getRequest id = some r)
    (hq : q ∈ s.getRequests (some 1000)) (hqid : q.id = id) : q = r := by
  have hq2 : q ∈ s.requests.map (fun p => p.2) := by
    have := List.take_subset 1000 (s.requests.map (fun p => p.2))
    exact this hq
  obtain ⟨p, hp, hpq⟩ := List.mem_map.mp hq2
  have hkey : p.1 = id := by
    have := hwf.1 p hp
    rw [← this, hpq, hqid]
  have hfind := find?_eq_of_mem_nodup hwf.2 hp
  have hfind2 : s.requests.find? (fun x => x.1 = id) = some p := by
    rw [← hkey]; exact hfind
  have : s.getRequest id = some p.2 := by
    simp [Store.getRequest, hfind2]
  rw [this] at hget
  rw [← hpq]
  exact Option.some.injEq _ _ ▸ hget

theorem applyOp_preserves (cfg : Config) (op : Op) {s : Store} {id : Nat} {r : RelayerRequest}
    (hwf : s.WF) (hfresh : opFresh op s = true) (hget : s.getRequest id = some r)
    (hterm : r.status = RequestStatus.Completed ∨ r.status = RequestStatus.Failed) :
    (applyOp cfg op s).getRequest id = some r ∧ (applyOp cfg op s).WF := by
  cases op with
  | intake env input =>
    have hne : id ≠ env.freshId := by
      intro h
      simp only [opFresh] at hfresh
      rw [← h, hget] at hfresh
      simp at hfresh
    obtain ⟨hg, hw⟩ := process_send_transaction_locality cfg env input hwf hne
    refine ⟨?_, hw⟩
    show (process_send_transaction cfg env input s).2.getRequest id = some r
    rw [hg]
    exact hget
  | intakeMulti envs input =>
    have hfresh2 : ∀ e ∈ envs, e.freshId ≠ id := by
      intro e he h
      simp only [opFresh, List.all_eq_true] at hfresh
      have := hfresh e he
      rw [h, hget] at this
      simp at this
    show (process_send_transaction_multichain cfg envs input s).2.getRequest id = some r ∧
      (process_send_transaction_multichain cfg envs input s).2.WF
    unfold process_send_transaction_multichain
    split
    · exact ⟨hget, hwf⟩
    split
    · exact ⟨hget, hwf⟩
    cases parseDecU64 input.paymentChainId with
    | none => exact ⟨hget, hwf⟩
    | some paymentChainId =>
      dsimp only
      split
      · exact ⟨hget, hwf⟩
      split
      · exact ⟨hget, hwf⟩
      exact multichain_go_preserves cfg (resolveFeeCollector cfg) _ s [] hwf hget
        (fun q hq => hfresh2 q.2 (List.of_mem_zip hq).2)
  | monitor envs =>
    show (monitor_tick cfg envs s).1.getRequest id = some r ∧ (monitor_tick cfg envs s).1.WF
    unfold monitor_tick
    exact monitor_go_preserves cfg _ s hwf hget
      (fun q hq hqid => by
        have hq1 := (List.of_mem_zip hq).1
        have := snapshot_record_eq hwf hget hq1 hqid
        rw [this]
        exact hterm)

theorem getRequest_storeRequest (s : Store) (r : RelayerRequest) (id : Nat) :
    (s.storeRequest r).getRequest id = if id = r.id then some r else s.getRequest id := by
  by_cases h : id = r.id
  · rw [if_pos h, h]
    exact getRequest_storeRequest_self s r
  · rw [if_neg h]
    exact getRequest_storeRequest_ne s r id h

theorem getRequest_updateRequestTxHash_self {s : Store} {k : Nat} {r : RelayerRequest}
    (hl : s.getRequest k = some r) (hid : r.id = k) (h : String) (now : Nat) :
    (s.updateRequestTxHash k h now).getRequest k =
      some { r with transaction_hash := some h, updated_at := now } := by
  unfold Store.updateRequestTxHash
  rw [hl, ← hid]
  exact getRequest_storeRequest_self s _

theorem getRequest_updateRequestStatus_self {s : Store} {k : Nat} {r : RelayerRequest}
    (hl : s.getRequest k = some r) (hid : r.id = k) (st : RequestStatus)
    (err : Option String) (now : Nat) :
    (s.updateRequestStatus k st err now).getRequest k =
      some { r with status := st, updated_at := now, error_message := err } := by
  unfold Store.updateRequestStatus
  rw [hl, ← hid]
  exact getRequest_storeRequest_self s _

theorem applyOps_preserves (cfg : Config) :
    ∀ (ops : List Op) (s : Store) {id : Nat} {r : RelayerRequest},
      s.WF → opsOK cfg ops s = true → s.getRequest id = some r →
      (r.status = RequestStatus.Completed ∨ r.status = RequestStatus.Failed) →
      (applyOps cfg ops s).getRequest id = some r := by
  intro ops
  induction ops with
  | nil => intro s id r _ _ hget _; exact hget
  | cons op rest ih =>
    intro s id r hwf hok hget hterm
    simp only [opsOK, Bool.and_eq_true] at hok
    obtain ⟨hg, hw⟩ := applyOp_preserves cfg op hwf hok.1 hget hterm
    exact ih (applyOp cfg op s) hw hok.2 hg hterm

/-! ## Claim theorems -/

/-- Claim C8 counterexample: a second mutate_status(id, Completed) call at a
later clock reading refreshes updated_at, so the store after two calls
differs from the store after one. -/
theorem update_status_twice_counterexample :
    (((Store.mk
        [(1, { id := 1, from_address := "0xf", to_address := "0xa", amount := "0",
               gas_limit := 21000, gas_price := "0x1000", data := some "0xab", nonce := 0,
               chain_id := 1, transaction_hash := some "0xh1",
               status := RequestStatus.Processing, created_at := 0, updated_at := 0,
               error_message := none })] []).updateRequestStatus 1
        RequestStatus.Completed none 5).updateRequestStatus 1
        RequestStatus.Completed none 7) ≠
      ((Store.mk
        [(1, { id := 1, from_address := "0xf", to_address := "0xa", amount := "0",
               gas_limit := 21000, gas_price := "0x1000", data := some "0xab", nonce := 0,
               chain_id := 1, transaction_hash := some "0xh1",
               status := RequestStatus.Processing, created_at := 0, updated_at := 0,
               error_message := none })] []).updateRequestStatus 1
        RequestStatus.Completed none 5) := by decide

/-- Claim C8 (amended): calling mutate_status(id, Completed) twice, at times
t1 then t2, is equivalent to calling it once at t2 — the repeated call only
refreshes updated_at, and with equal call times the two stores coincide
exactly. -/
theorem update_status_twice (s : Store) (id t1 t2 : Nat) :
    (s.updateRequestStatus id RequestStatus.Completed none t1).updateRequestStatus id
        RequestStatus.Completed none t2 =
      s.updateRequestStatus id RequestStatus.Completed none t2 := by
  unfold Store.updateRequestStatus
  cases hl : s.getRequest id with
  | none => rw [hl]
  | some r =>
    simp only [hl]
    rw [getRequest_storeRequest]
    by_cases hid : id = r.id
    · rw [if_pos hid]
      dsimp only
      simp only [Store.storeRequest]
      rw [putAssoc_putAssoc]
    · rw [if_neg hid, hl]
      dsimp only
      simp only [Store.storeRequest]
      rw [putAssoc_putAssoc]

/-- Claim C10 counterexample: for percent 1 the input
0xffffffffffffffffffffffffffffffff parses as u128 (its product with the
percent stays in range), yet the computed sum wraps mod 2^128, so the
function does not return the hex encoding of v + v * percent / 100. -/
theorem bump_gas_price_counterexample :
    u128FromStrRadix16 (strip0x "0xffffffffffffffffffffffffffffffff") =
        some (2 ^ 128 - 1) ∧
      (2 ^ 128 - 1) * 1 < 2 ^ 128 ∧
      bump_gas_price_hex "0xffffffffffffffffffffffffffffffff" 1 ≠
        toHexString ((2 ^ 128 - 1) + (2 ^ 128 - 1) * 1 / 100) := by
  refine ⟨by decide, by decide, ?_⟩
  decide

/-- Claim C10 (amended): bump_gas_price_hex is total. Whenever the input
(after an optional 0x prefix) parses as a u128 value v and both
v * percent and the bumped sum v + v * percent / 100 stay below 2^128,
the result is the 0x-hex encoding of that sum; whenever the input does
not parse as u128 hex, the input string is returned unchanged. -/
theorem bump_gas_price_hex_total :
    (∀ (s : String) (percent v : Nat),
      u128FromStrRadix16 (strip0x s) = some v →
      v * percent < 2 ^ 128 → v + v * percent / 100 < 2 ^ 128 →
      bump_gas_price_hex s percent = toHexString (v + v * percent / 100))
    ∧ (∀ (s : String) (percent : Nat),
      u128FromStrRadix16 (strip0x s) = none → bump_gas_price_hex s percent = s) := by
  constructor
  · intro s percent v hv hmul hsum
    unfold bump_gas_price_hex
    simp only [hv]
    rw [Nat.mod_eq_of_lt hmul, Nat.mod_eq_of_lt hsum]
  · intro s percent h
    unfold bump_gas_price_hex
    simp only [h]

/-- Claim C10 witness: bumping 0x1000 by 20 percent yields the hex encoding
of 4096 + 4096 * 20 / 100 = 4915. -/
theorem bump_gas_price_hex_total_witness :
    u128FromStrRadix16 (strip0x "0x1000") = some 4096 ∧
      4096 * 20 < 2 ^ 128 ∧ 4096 + 4096 * 20 / 100 < 2 ^ 128 ∧
      bump_gas_price_hex "0x1000" 20 = toHexString (4096 + 4096 * 20 / 100) :=
  ⟨by decide, by decide, by decide,
    bump_gas_price_hex_total.1 "0x1000" 20 4096 (by decide) (by decide) (by decide)⟩

/-- Claim C5: with simulation disabled the simulator returns the fixed
150000 default for every input without consulting the chain oracles; with
simulation enabled (and outside stub mode) it rejects calldata shorter
than 4 bytes and calldata whose first four bytes differ from the
executeWithRelayer selector, while calldata of exactly 4 selector bytes
passes the length check and is simulated normally via the chain calls. -/
theorem simulate_transaction_selector_policy :
    (∀ (cfg : Config) (env : SimEnv) (toA data : String) (chain : Nat),
      cfg.isSimulationDisabled = true →
      simulate_transaction cfg env toA data chain = .ok 150000)
    ∧ (∀ (cfg : Config) (env : SimEnv) (toA data : String) (chain : Nat)
        (url : String) (addr bytes : List Nat),
      cfg.isSimulationDisabled = false → cfg.stubMode = false →
      cfg.rpcUrlForChain chain = some url → parseAddress toA = some addr →
      parseHexBytes data = some bytes → bytes.length < 4 →
      simulate_transaction cfg env toA data chain = .error "Calldata too short")
    ∧ (∀ (cfg : Config) (env : SimEnv) (toA data : String) (chain : Nat)
        (url : String) (addr bytes : List Nat),
      cfg.isSimulationDisabled = false → cfg.stubMode = false →
      cfg.rpcUrlForChain chain = some url → parseAddress toA = some addr →
      parseHexBytes data = some bytes → 4 ≤ bytes.length →
      bytes.take 4 ≠ executeWithRelayerSelector →
      simulate_transaction cfg env toA data chain =
        .error "Transaction is not calling executeWithRelayer")
    ∧ (∀ (cfg : Config) (env : SimEnv) (toA data : String) (chain : Nat)
        (url : String) (addr bytes : List Nat) (g : Nat),
      cfg.isSimulationDisabled = false → cfg.stubMode = false →
      cfg.rpcUrlForChain chain = some url → parseAddress toA = some addr →
      parseHexBytes data = some bytes → bytes.length = 4 →
      bytes.take 4 = executeWithRelayerSelector →
      env.ethCall = .ok () → env.estimateGas = .ok g →
      simulate_transaction cfg env toA data chain = .ok (g % 2 ^ 64)) := by
  refine ⟨?_, ?_, ?_, ?_⟩
  · intro cfg env toA data chain hdis
    unfold simulate_transaction
    simp only [hdis, if_true]
  · intro cfg env toA data chain url addr bytes hdis hstub hurl haddr hbytes hlen
    unfold simulate_transaction
    simp only [hdis, hstub, Bool.false_eq_true, if_false, hurl, haddr, hbytes]
    rw [if_pos hlen]
  · intro cfg env toA data chain url addr bytes hdis hstub hurl haddr hbytes hlen hsel
    unfold simulate_transaction
    simp only [hdis, hstub, Bool.false_eq_true, if_false, hurl, haddr, hbytes]
    rw [if_neg (by omega), if_pos hsel]
  · intro cfg env toA data chain url addr bytes g hdis hstub hurl haddr hbytes hlen hsel
      hcall hgas
    unfold simulate_transaction
    simp only [hdis, hstub, Bool.false_eq_true, if_false, hurl, haddr, hbytes]
    rw [if_neg (by omega), if_neg (by simp [hsel])]
    simp only [hcall, hgas]

/-- Claim C5 witness: concrete runs of the simulator exercising the
disabled default, the short-calldata rejection, the selector rejection
and the 4-byte selector-only pass. -/
theorem simulate_transaction_selector_policy_witness :
    (simulate_transaction
        { rpcUrls := [(1, "u")], feeCollectorEnv := none, feeCollectorCfg := none,
          defaultTokenEnv := none, defaultTokenCfg := none, supportedTokens := [],
          disableSimulation := true, stubMode := false }
        { ethCall := .error "ignored", estimateGas := .error "ignored" }
        "0x00112233445566778899aabbccddeeff00112233" "0x" 1 = .ok 150000)
    ∧ (simulate_transaction
        { rpcUrls := [(1, "u")], feeCollectorEnv := none, feeCollectorCfg := none,
          defaultTokenEnv := none, defaultTokenCfg := none, supportedTokens := [],
          disableSimulation := false, stubMode := false }
        { ethCall := .ok (), estimateGas := .ok 90000 }
        "0x00112233445566778899aabbccddeeff00112233" "0xc3a4" 1 =
        .error "Calldata too short")
    ∧ (simulate_transaction
        { rpcUrls := [(1, "u")], feeCollectorEnv := none, feeCollectorCfg := none,
          defaultTokenEnv := none, defaultTokenCfg := none, supportedTokens := [],
          disableSimulation := false, stubMode := false }
        { ethCall := .ok (), estimateGas := .ok 90000 }
        "0x00112233445566778899aabbccddeeff00112233" "0xdeadbeef" 1 =
        .error "Transaction is not calling executeWithRelayer")
    ∧ (simulate_transaction
        { rpcUrls := [(1, "u")], feeCollectorEnv := none, feeCollectorCfg := none,
          defaultTokenEnv := none, defaultTokenCfg := none, supportedTokens := [],
          disableSimulation := false, stubMode := false }
        { ethCall := .ok (), estimateGas := .ok 90000 }
        "0x00112233445566778899aabbccddeeff00112233" "0xc3a4e9ca" 1 = .ok 90000) := by
  refine ⟨?_, ?_, ?_, ?_⟩
  · exact simulate_transaction_selector_policy.1 _ _ _ _ _ rfl
  · exact simulate_transaction_selector_policy.2.1 _ _ _ _ 1 "u" [0, 17, 34, 51, 68, 85, 102, 119, 136, 153, 170, 187, 204, 221, 238, 255, 0, 17, 34, 51] [195, 164] rfl rfl
      (by decide) (by decide) (by decide) (by decide)
  · exact simulate_transaction_selector_policy.2.2.1 _ _ _ _ 1 "u" [0, 17, 34, 51, 68, 85, 102, 119, 136, 153, 170, 187, 204, 221, 238, 255, 0, 17, 34, 51]
      [222, 173, 190, 239] rfl rfl
      (by decide) (by decide) (by decide) (by decide) (by decide)
  · exact simulate_transaction_selector_policy.2.2.2 _ _ _ _ 1 "u" [0, 17, 34, 51, 68, 85, 102, 119, 136, 153, 170, 187, 204, 221, 238, 255, 0, 17, 34, 51]
      [195, 164, 233, 202] 90000 rfl rfl
      (by decide) (by decide) (by decide) (by decide) (by decide) rfl rfl

/-- Claim C6: native-payment validation requires the zero-address token
(else InvalidParams); the required balance is the exact 256-bit product
gas_price * gas_limit, whose overflow of the 256-bit space is reported as
InternalError rather than wrapped; an on-chain balance below the product
is rejected with InvalidParams and a sufficient balance is accepted. -/
theorem native_payment_checks :
    (∀ (cfg : Config) (token gasPriceHex : String) (simGas chainId : Nat)
        (balance : Except Unit Nat),
      token ≠ zeroAddress →
      validate_native_payment cfg token gasPriceHex simGas chainId balance =
        .error .invalidParams)
    ∧ (∀ (cfg : Config) (gasPriceHex : String) (simGas chainId : Nat)
        (balance : Except Unit Nat) (gp : Nat),
      parse_hex_u256 gasPriceHex = some gp → 2 ^ 256 ≤ gp * simGas →
      validate_native_payment cfg zeroAddress gasPriceHex simGas chainId balance =
        .error .internalError)
    ∧ (∀ (cfg : Config) (gasPriceHex : String) (simGas chainId : Nat)
        (url : String) (bal gp : Nat),
      parse_hex_u256 gasPriceHex = some gp → gp * simGas < 2 ^ 256 →
      cfg.rpcUrlForChain chainId = some url → bal % 2 ^ 256 < gp * simGas →
      validate_native_payment cfg zeroAddress gasPriceHex simGas chainId (.ok bal) =
        .error .invalidParams)
    ∧ (∀ (cfg : Config) (gasPriceHex : String) (simGas chainId : Nat)
        (url : String) (bal gp : Nat),
      parse_hex_u256 gasPriceHex = some gp → gp * simGas < 2 ^ 256 →
      cfg.rpcUrlForChain chainId = some url → gp * simGas ≤ bal % 2 ^ 256 →
      validate_native_payment cfg zeroAddress gasPriceHex simGas chainId (.ok bal) =
        .ok ()) := by
  refine ⟨?_, ?_, ?_, ?_⟩
  · intro cfg token gasPriceHex simGas chainId balance hne
    unfold validate_native_payment
    rw [if_pos hne]
  · intro cfg gasPriceHex simGas chainId balance gp hgp hovf
    unfold validate_native_payment
    rw [if_neg (by simp)]
    simp only [hgp]
    rw [if_pos hovf]
  · intro cfg gasPriceHex simGas chainId url bal gp hgp hovf hurl hlt
    unfold validate_native_payment
    rw [if_neg (by simp)]
    simp only [hgp, hurl]
    rw [if_neg (by omega)]
    rw [if_pos hlt]
  · intro cfg gasPriceHex simGas chainId url bal gp hgp hovf hurl hge
    unfold validate_native_payment
    rw [if_neg (by simp)]
    simp only [hgp, hurl]
    rw [if_neg (by omega)]
    rw [if_neg (by omega)]

/-- Claim C6 witness: concrete native-payment validations — wrong token,
an overflowing 256-bit product, an insufficient balance, and a
sufficient balance. -/
theorem native_payment_checks_witness :
    (validate_native_payment
        { rpcUrls := [(1, "u")], feeCollectorEnv := none, feeCollectorCfg := none,
          defaultTokenEnv := none, defaultTokenCfg := none, supportedTokens := [],
          disableSimulation := false, stubMode := false }
        "0x1111111111111111111111111111111111111111" "0x10" 21000 1 (.ok 0) =
        .error .invalidParams)
    ∧ (validate_native_payment
        { rpcUrls := [(1, "u")], feeCollectorEnv := none, feeCollectorCfg := none,
          defaultTokenEnv := none, defaultTokenCfg := none, supportedTokens := [],
          disableSimulation := false, stubMode := false }
        zeroAddress
        "0x8000000000000000000000000000000000000000000000000000000000000000" 2 1
        (.ok 0) = .error .internalError)
    ∧ (validate_native_payment
        { rpcUrls := [(1, "u")], feeCollectorEnv := none, feeCollectorCfg := none,
          defaultTokenEnv := none, defaultTokenCfg := none, supportedTokens := [],
          disableSimulation := false, stubMode := false }
        zeroAddress "0x10" 21000 1 (.ok 1000) = .error .invalidParams)
    ∧ (validate_native_payment
        { rpcUrls := [(1, "u")], feeCollectorEnv := none, feeCollectorCfg := none,
          defaultTokenEnv := none, defaultTokenCfg := none, supportedTokens := [],
          disableSimulation := false, stubMode := false }
        zeroAddress "0x10" 21000 1 (.ok 1000000) = .ok ()) := by
  refine ⟨?_, ?_, ?_, ?_⟩
  · exact native_payment_checks.1 _ _ _ _ _ _ (by decide)
  · exact native_payment_checks.2.1 _ _ 2 1 _ (2 ^ 255) (by decide) (by norm_num)
  · exact native_payment_checks.2.2.1 _ _ 21000 1 "u" 1000 16 (by decide) (by norm_num)
      (by decide) (by norm_num)
  · exact native_payment_checks.2.2.2 _ _ 21000 1 "u" 1000000 16 (by decide) (by norm_num)
      (by decide) (by norm_num)

/-- Claim C9: every relayer_getCapabilities response has exactly one native
payment entry, whose token is the zero address, exactly one sponsored
entry, and at least one erc20 entry; with no tokens configured under
chainlink.tokenUsd the single erc20 entry carries the configured default
token or, absent that, the hard-coded USDC fallback. -/
theorem countP_map_pred_false {α β : Type} (f : α → β) (p : β → Bool) (l : List α)
    (h : ∀ a, p (f a) = false) : (l.map f).countP p = 0 := by
  induction l with
  | nil => rfl
  | cons a l ih => simp [List.countP_cons, h, ih]

theorem countP_map_pred_true {α β : Type} (f : α → β) (p : β → Bool) (l : List α)
    (h : ∀ a, p (f a) = true) : (l.map f).countP p = l.length := by
  induction l with
  | nil => rfl
  | cons a l ih => simp [List.countP_cons, h, ih]

theorem get_capabilities_shape (cfg : Config) :
    ((process_get_capabilities cfg).countP
        (fun p => match p with | PaymentEntry.native _ => true | _ => false) = 1)
    ∧ (∀ t, PaymentEntry.native t ∈ process_get_capabilities cfg → t = zeroAddress)
    ∧ ((process_get_capabilities cfg).countP
        (fun p => match p with | PaymentEntry.sponsored => true | _ => false) = 1)
    ∧ (1 ≤ (process_get_capabilities cfg).countP
        (fun p => match p with | PaymentEntry.erc20 _ => true | _ => false))
    ∧ (cfg.supportedTokens = [] →
      (process_get_capabilities cfg).filter
          (fun p => match p with | PaymentEntry.erc20 _ => true | _ => false) =
        [PaymentEntry.erc20
          ((cfg.defaultToken).getD "0x036CbD53842c5426634e7929541eC2318f3dCF7e")]) := by
  refine ⟨?_, ?_, ?_, ?_, ?_⟩
  · unfold process_get_capabilities
    dsimp only
    by_cases hemp : (cfg.supportedTokens.map PaymentEntry.erc20).isEmpty
    · rw [if_pos hemp]
      rfl
    · rw [if_neg hemp]
      rw [List.countP_append, countP_map_pred_false _ _ _ (fun a => rfl)]
      rfl
  · intro t ht
    unfold process_get_capabilities at ht
    dsimp only at ht
    rcases List.mem_append.mp ht with hml | hmr
    · exfalso
      by_cases hemp : (cfg.supportedTokens.map PaymentEntry.erc20).isEmpty
      · rw [if_pos hemp] at hml
        rcases List.mem_singleton.mp hml with h
        exact PaymentEntry.noConfusion h
      · rw [if_neg hemp] at hml
        obtain ⟨a, -, ha⟩ := List.mem_map.mp hml
        exact PaymentEntry.noConfusion ha
    · rcases List.mem_cons.mp hmr with h | h
      · injection h with h2
      · rcases List.mem_cons.mp h with h2 | h2
        · exact PaymentEntry.noConfusion h2
        · exact absurd h2 (List.not_mem_nil _)
  · unfold process_get_capabilities
    dsimp only
    by_cases hemp : (cfg.supportedTokens.map PaymentEntry.erc20).isEmpty
    · rw [if_pos hemp]
      rfl
    · rw [if_neg hemp]
      rw [List.countP_append, countP_map_pred_false _ _ _ (fun a => rfl)]
      rfl
  · unfold process_get_capabilities
    dsimp only
    by_cases hemp : (cfg.supportedTokens.map PaymentEntry.erc20).isEmpty
    · rw [if_pos hemp]
      rfl
    · rw [if_neg hemp]
      rw [List.countP_append, countP_map_pred_true _ _ _ (fun a => rfl)]
      have hlen : 1 ≤ cfg.supportedTokens.length := by
        cases hts : cfg.supportedTokens with
        | nil => rw [hts] at hemp; exact absurd rfl hemp
        | cons a l => simp
      omega
  · intro h
    unfold process_get_capabilities
    rw [h]
    rfl

/-- Claim C9 witness: with no configured tokens and no default-token
setting the erc20 entries reduce to the single USDC fallback entry, and
the zero-address native entry is present. -/
theorem get_capabilities_shape_witness :
    ((process_get_capabilities cfgFix).countP
        (fun p => match p with | PaymentEntry.native _ => true | _ => false) = 1)
    ∧ (PaymentEntry.native zeroAddress ∈ process_get_capabilities cfgFix ∧
        zeroAddress = zeroAddress)
    ∧ (cfgFix.supportedTokens = [] ∧
      (process_get_capabilities cfgFix).filter
          (fun p => match p with | PaymentEntry.erc20 _ => true | _ => false) =
        [PaymentEntry.erc20 "0x036CbD53842c5426634e7929541eC2318f3dCF7e"]) :=
  ⟨(get_capabilities_shape cfgFix).1,
   ⟨by decide, (get_capabilities_shape cfgFix).2.1 zeroAddress (by decide)⟩,
   ⟨rfl, (get_capabilities_shape cfgFix).2.2.2.2 rfl⟩⟩

/-- Claim C7: relayer_getStatus returns one row per input id, in input
order (an empty list yields an empty result); an unparsable id yields
status 400, an id absent from the store 404; a stored request maps
Pending/Processing to 201, Completed to 200 and Failed to 500, carries
any error_message as the single off-chain failure entry and attaches all
stored resubmissions. -/
theorem get_status_rows (store : Store) (parseId : String → Option Nat)
    (ids : List String) :
    (process_get_status store parseId ids).length = ids.length
    ∧ process_get_status store parseId [] = []
    ∧ (∀ i, i < ids.length →
      ∀ row idq, row = (process_get_status store parseId ids).getD i
          { version := "", id := "", status := 0, resubmissions := [],
            offchainFailure := [] } →
        idq = ids.getD i "" →
        (row.id = idq
        ∧ (parseId idq = none →
            row.status = 400 ∧ row.offchainFailure = ["invalid id format"])
        ∧ (∀ u, parseId idq = some u → store.getRequest u = none → row.status = 404)
        ∧ (∀ u req, parseId idq = some u → store.getRequest u = some req →
            row.status = (match req.status with
              | RequestStatus.Pending => 201
              | RequestStatus.Processing => 201
              | RequestStatus.Completed => 200
              | RequestStatus.Failed => 500)
            ∧ row.resubmissions = store.getResubmissions u
            ∧ row.offchainFailure =
                (match req.error_message with | some m => [m] | none => [])))) := by
  refine ⟨by simp [process_get_status], rfl, ?_⟩
  intro i hi row idq hrow hidq
  subst hidq
  have hkey : row = status_row store parseId (ids.getD i "") := by
    rw [hrow]
    show (ids.map (status_row store parseId)).getD i _ = _
    rw [List.getD_eq_getElem _ _ (by simpa using hi), List.getD_eq_getElem _ _ hi]
    simp
  subst hkey
  refine ⟨?_, ?_, ?_, ?_⟩
  · unfold status_row
    cases hp : parseId (ids.getD i "") with
    | none => simp only [hp]
    | some u =>
      simp only [hp]
      cases hg : store.getRequest u with
      | none => simp only [hg]
      | some req => simp only [hg]
  · intro hp
    unfold status_row
    simp only [hp]
    exact ⟨trivial, trivial⟩
  · intro u hp habs
    unfold status_row
    simp only [hp, habs]
  · intro u req hp hreq
    unfold status_row
    simp only [hp, hreq]
    exact ⟨trivial, trivial, trivial⟩

/-- Claim C7 witness: a status query over a one-record store with one
stored resubmission, querying a Failed id, an unknown id and an
unparsable id. -/
theorem get_status_rows_witness :
    (process_get_status storeFixStatus parseFix ["id1", "id9", "zzz"]).length = 3
    ∧ (2 < (["id1", "id9", "zzz"] : List String).length
      ∧ ((process_get_status storeFixStatus parseFix ["id1", "id9", "zzz"]).getD 2
          { version := "", id := "", status := 0, resubmissions := [],
            offchainFailure := [] }).status = 400) :=
  ⟨(get_status_rows storeFixStatus parseFix ["id1", "id9", "zzz"]).1,
   ⟨by decide,
    (((get_status_rows storeFixStatus parseFix ["id1", "id9", "zzz"]).2.2 2 (by decide)
        _ _ rfl rfl).2.1 (by decide)).1⟩⟩

/-- Claim C2: error propagation is atomic around persistence. Any failure
of the validation phase surfaces that error and leaves the store
untouched; a broadcast failure after the Pending record was persisted
marks the record Failed with the error message attached and surfaces
InternalError (-32603); an ERC-20 token outside the supported set is the
UnsupportedPaymentToken error with code -4202. -/
theorem send_transaction_error_atomicity :
    (∀ (cfg : Config) (env : IntakeEnv) (input : SendTransactionRequest) (s : Store)
        (e : RpcError),
      intake_validate cfg env input = .error e →
      process_send_transaction cfg env input s = (.error e, s))
    ∧ (∀ (cfg : Config) (env : IntakeEnv) (input : SendTransactionRequest) (s : Store)
        (v : Nat × Nat × String) (msg : String),
      intake_validate cfg env input = .ok v → cfg.stubMode = false →
      env.broadcast = .error msg →
      (process_send_transaction cfg env input s).1 = .error .internalError ∧
      ∃ req, (process_send_transaction cfg env input s).2.getRequest env.freshId = some req ∧
        req.status = .Failed ∧ req.error_message = some msg ∧
        RpcError.code .internalError = -32603)
    ∧ (∀ (cfg : Config) (token : String),
      starts0x token = true → strLen token = 42 →
      (∀ t ∈ cfg.supportedTokens, asciiLower t ≠ asciiLower token) →
      validate_erc20_payment cfg token = .error .unsupportedPaymentToken ∧
      RpcError.code .unsupportedPaymentToken = -4202) := by
  refine ⟨?_, ?_, ?_⟩
  · intro cfg env input s e hval
    unfold process_send_transaction
    simp only [hval]
  · intro cfg env input s v msg hval hstub hb
    obtain ⟨chainId, gasLimit, gasPrice⟩ := v
    unfold process_send_transaction
    simp only [hval]
    unfold intake_finalize send_relay
    simp only [hstub, Bool.false_eq_true, if_false, hb]
    refine ⟨by trivial, ?_⟩
    have hself : (s.storeRequest
        (mkIntakeRequest cfg env input chainId gasLimit gasPrice)).getRequest env.freshId =
          some (mkIntakeRequest cfg env input chainId gasLimit gasPrice) :=
      getRequest_storeRequest_self s _
    have hupd := getRequest_updateRequestStatus_self hself rfl RequestStatus.Failed
      (some msg) env.now
    exact ⟨_, hupd, rfl, rfl, rfl⟩
  · intro cfg token hstart hlen hne
    unfold validate_erc20_payment
    rw [if_neg (by simp [hstart, hlen])]
    rw [if_neg ?hany]
    · exact ⟨rfl, rfl⟩
    case hany =>
      intro h
      obtain ⟨t, ht, he⟩ := List.any_eq_true.mp h
      exact hne t ht (of_decide_eq_true he)

/-- Claim C2 witness: an unsupported-chain submission is rejected without
touching the store, and a failing broadcast after persistence leaves a
Failed record carrying the broadcast error while the caller receives
InternalError. -/
theorem send_transaction_error_atomicity_witness :
    (intake_validate cfgFix intakeEnvFix inputBadChainFix = .error .invalidParams
      ∧ process_send_transaction cfgFix intakeEnvFix inputBadChainFix (Store.mk [] []) =
          (.error .invalidParams, Store.mk [] []))
    ∧ (intake_validate cfgFix intakeEnvFailFix inputFix = .ok (1, 90000, "0x10")
      ∧ cfgFix.stubMode = false
      ∧ intakeEnvFailFix.broadcast = .error "send failed"
      ∧ (process_send_transaction cfgFix intakeEnvFailFix inputFix (Store.mk [] [])).1 =
          .error .internalError
      ∧ ∃ req,
          (process_send_transaction cfgFix intakeEnvFailFix inputFix
              (Store.mk [] [])).2.getRequest 2 = some req ∧
          req.status = .Failed ∧ req.error_message = some "send failed" ∧
          RpcError.code .internalError = -32603) := by
  refine ⟨⟨by decide, ?_⟩, ⟨by decide, rfl, rfl, ?_, ?_⟩⟩
  · exact send_transaction_error_atomicity.1 cfgFix intakeEnvFix inputBadChainFix
      (Store.mk [] []) .invalidParams (by decide)
  · exact (send_transaction_error_atomicity.2.1 cfgFix intakeEnvFailFix inputFix
      (Store.mk [] []) (1, 90000, "0x10") "send failed" (by decide) rfl rfl).1
  · exact (send_transaction_error_atomicity.2.1 cfgFix intakeEnvFailFix inputFix
      (Store.mk [] []) (1, 90000, "0x10") "send failed" (by decide) rfl rfl).2

theorem multi_broadcast_writes_getRequest_self (cfg : Config) (env : MultiTxEnv)
    (s : Store) (req : RelayerRequest) (hid : req.id = env.freshId) :
    ∃ r, (multi_broadcast_writes cfg env (s.storeRequest req)).getRequest env.freshId =
        some r ∧ r.gas_limit = req.gas_limit := by
  unfold multi_broadcast_writes
  have hself : (s.storeRequest req).getRequest env.freshId = some req := by
    rw [← hid]
    exact getRequest_storeRequest_self s req
  cases hb : (if cfg.stubMode then Except.ok env.stubHash else env.broadcast) with
  | ok h =>
    dsimp only
    have h1 := getRequest_updateRequestTxHash_self hself hid h env.now
    have h2 := getRequest_updateRequestStatus_self h1 hid RequestStatus.Processing none env.now
    by_cases hstub : cfg.stubMode = true
    · rw [if_pos hstub]
      have h3 := getRequest_updateRequestStatus_self h2 hid RequestStatus.Completed none env.now
      exact ⟨_, h3, rfl⟩
    · rw [if_neg hstub]
      exact ⟨_, h2, rfl⟩
  | error e =>
    dsimp only
    have h1 := getRequest_updateRequestStatus_self hself hid RequestStatus.Failed
      (some e) env.now
    exact ⟨_, h1, rfl⟩

/-- Claim C3 counterexample: a multichain submission whose only transaction
fails simulation (1-byte calldata) while disable_simulation is false does
NOT fail with SimulationFailed: it succeeds, and the persisted record
carries the fallback 150000 gas limit and proceeds to Processing. -/
theorem multichain_simulation_counterexample :
    (process_send_transaction_multichain cfgFix [multiEnvFix] multiInputFix
        (Store.mk [] [])).1 = .ok [("1", 7)]
    ∧ (process_send_transaction_multichain cfgFix [multiEnvFix] multiInputFix
        (Store.mk [] [])).2.getRequest 7 =
      some
        { id := 7, from_address := "0x55f3a93f544e01ce4378d25e927d7c493b863bd6",
          to_address := "0x00112233445566778899aabbccddeeff00112233", amount := "0",
          gas_limit := 150000, gas_price := "0x10", data := some "0x12", nonce := 0,
          chain_id := 1, transaction_hash := some "0xdddd",
          status := RequestStatus.Processing, created_at := 3, updated_at := 3,
          error_message := none }
    ∧ cfgFix.isSimulationDisabled = false
    ∧ simulate_transaction cfgFix multiEnvFix.sim multiTxFix.«to» multiTxFix.data 1 =
        .error "Calldata too short" := by
  refine ⟨by decide, by decide, rfl, by decide⟩

/-- Claim C3 (amended): each multichain transaction runs the single-chain
field and chain checks, gas-price fetch, simulation, persistence and
broadcast, but a rejected simulation never aborts the call: the
transaction proceeds with the default 150000 gas limit even when
disable_simulation is false (no SimulationFailed error is raised). -/
theorem multichain_simulation_fallback :
    ∀ (cfg : Config) (env : MultiTxEnv) (fc : String) (tx : MultichainTransaction)
      (store : Store) (msg : String) (chainId : Nat),
      strIsEmpty tx.«to» = false → strIsEmpty tx.data = false →
      strIsEmpty tx.chainId = false →
      parseDecU64 tx.chainId = some chainId → cfg.isChainSupported chainId = true →
      simulate_transaction cfg env.sim tx.«to» tx.data chainId = .error msg →
      ∃ store2 req,
        process_one_multichain_tx cfg env fc tx store =
          .ok ((tx.chainId, env.freshId), store2) ∧
        store2.getRequest env.freshId = some req ∧ req.gas_limit = 150000 := by
  intro cfg env fc tx store msg chainId h1 h2 h3 hp hsup hsim
  unfold process_one_multichain_tx
  simp only [h1, h2, h3, Bool.false_eq_true, if_false, hp]
  rw [if_neg (by simp [hsup])]
  simp only [hsim]
  obtain ⟨r, hr, hg⟩ := multi_broadcast_writes_getRequest_self cfg env store
    (mkMultiRequest env fc tx chainId 150000
      (match fetch_gas_price cfg env.providerGasPrice chainId with
        | .ok p => p
        | .error _ => "0x4a817c800")) rfl
  exact ⟨_, r, rfl, hr, hg⟩

/-- Claim C3 witness: the fallback theorem instantiated on the concrete
short-calldata multichain transaction. -/
theorem multichain_simulation_fallback_witness :
    (strIsEmpty multiTxFix.«to» = false ∧ strIsEmpty multiTxFix.data = false ∧
      strIsEmpty multiTxFix.chainId = false ∧ parseDecU64 multiTxFix.chainId = some 1 ∧
      cfgFix.isChainSupported 1 = true ∧
      simulate_transaction cfgFix multiEnvFix.sim multiTxFix.«to» multiTxFix.data 1 =
        .error "Calldata too short")
    ∧ ∃ store2 req,
        process_one_multichain_tx cfgFix multiEnvFix "0xfc" multiTxFix (Store.mk [] []) =
          .ok ((multiTxFix.chainId, multiEnvFix.freshId), store2) ∧
        store2.getRequest multiEnvFix.freshId = some req ∧ req.gas_limit = 150000 :=
  ⟨⟨by decide, by decide, by decide, by decide, by decide, by decide⟩,
   multichain_simulation_fallback cfgFix multiEnvFix "0xfc" multiTxFix (Store.mk [] [])
     "Calldata too short" 1 (by decide) (by decide) (by decide) (by decide) (by decide)
     (by decide)⟩

/-- Claim C4 counterexample: the monitor rebroadcast price is the freshly
fetched chain price bumped by 20 percent (16 wei becomes 0x13 = 19 wei),
not max(current, stored x 1.20): with stored gas_price 0x1000 = 4096 the
claimed formula yields 0x1333 = 4915, and the emitted 19 wei is also far
below 1.2 times the stored price. -/
theorem monitor_bump_counterexample :
    (monitor_process_record cfgFix monEnvFix (Store.mk [(1, reqFix)] []) reqFix).2 =
      [callFix]
    ∧ reqFix.gas_price = "0x1000"
    ∧ bump_gas_price_hex reqFix.gas_price 20 = "0x1333"
    ∧ monEnvFix.gasPrice = Except.ok 16
    ∧ toHexString (max 16 4915) = "0x1333"
    ∧ callFix.gasPrice = "0x13"
    ∧ "0x13" ≠ "0x1333"
    ∧ u128FromStrRadix16 "13" = some 19
    ∧ 19 * 10 < 4096 * 12 := by
  refine ⟨by decide, rfl, by decide, rfl, by decide, rfl, by decide, by decide, by decide⟩

/-- Claim C4 (amended): on every monitor pass over a Pending/Processing
record with a transaction hash and no receipt, every rebroadcast it
issues uses as gas price the freshly fetched current chain price bumped
by 20 percent (parse hex, add 20 percent, format back), independent of
the gas price stored on the request. -/
theorem monitor_bump_uses_current_price :
    ∀ (cfg : Config) (env : MonitorRecEnv) (s : Store) (req : RelayerRequest)
      (c : BroadcastCall), c ∈ (monitor_process_record cfg env s req).2 →
      ∃ priceHex, fetch_gas_price cfg env.gasPrice req.chain_id = .ok priceHex ∧
        c.gasPrice = bump_gas_price_hex priceHex 20 := by
  intro cfg env s req c hc
  unfold monitor_process_record at hc
  by_cases hact : req.status = RequestStatus.Pending ∨ req.status = RequestStatus.Processing
  · rw [if_pos hact] at hc
    cases htx : req.transaction_hash with
    | none =>
      simp only [htx] at hc
      exact absurd hc (List.not_mem_nil c)
    | some txh =>
      simp only [htx] at hc
      rcases hfr : fetch_and_update_receipt cfg env s req with ⟨store1, os⟩
      simp only [hfr] at hc
      cases os with
      | some st => exact absurd hc (List.not_mem_nil c)
      | none =>
        cases hfp : fetch_gas_price cfg env.gasPrice req.chain_id with
        | error e =>
          simp only [hfp] at hc
          exact absurd hc (List.not_mem_nil c)
        | ok priceHex =>
          simp only [hfp] at hc
          cases hd : req.data with
          | none =>
            simp only [hd] at hc
            exact absurd hc (List.not_mem_nil c)
          | some d =>
            simp only [hd] at hc
            cases hb : (if cfg.stubMode then Except.ok env.stubHash else env.broadcast) with
            | ok newHash =>
              simp only [hb] at hc
              rw [List.mem_singleton] at hc
              subst hc
              exact ⟨priceHex, rfl, rfl⟩
            | error e =>
              simp only [hb] at hc
              rw [List.mem_singleton] at hc
              subst hc
              exact ⟨priceHex, rfl, rfl⟩
  · rw [if_neg hact] at hc
    exact absurd hc (List.not_mem_nil c)

/-- Claim C4 witness: the amended theorem instantiated on the concrete
stalled Processing request, whose emitted rebroadcast carries the bumped
current price. -/
theorem monitor_bump_uses_current_price_witness :
    callFix ∈ (monitor_process_record cfgFix monEnvFix (Store.mk [(1, reqFix)] []) reqFix).2
    ∧ ∃ priceHex, fetch_gas_price cfgFix monEnvFix.gasPrice reqFix.chain_id =
          .ok priceHex ∧ callFix.gasPrice = bump_gas_price_hex priceHex 20 :=
  ⟨by decide,
   monitor_bump_uses_current_price cfgFix monEnvFix (Store.mk [(1, reqFix)] []) reqFix
     callFix (by decide)⟩

/-- Claim C1: terminal-state absorption. From any well-formed store, under
any interleaving of single-chain intake calls, multichain intake calls
(each drawing fresh ids) and monitor ticks, a request record whose status
is Completed or Failed is never changed again — its stored record is
preserved verbatim, so no later operation changes its status; moreover
the monitor leaves any snapshot record whose status is not Pending or
Processing completely untouched and issues no broadcast for it. -/
theorem terminal_status_absorption :
    (∀ (cfg : Config) (ops : List Op) (s : Store) (id : Nat) (r : RelayerRequest),
      s.WF → opsOK cfg ops s = true → s.getRequest id = some r →
      (r.status = RequestStatus.Completed ∨ r.status = RequestStatus.Failed) →
      (applyOps cfg ops s).getRequest id = some r)
    ∧ (∀ (cfg : Config) (env : MonitorRecEnv) (s : Store) (req : RelayerRequest),
      req.status ≠ RequestStatus.Pending → req.status ≠ RequestStatus.Processing →
      monitor_process_record cfg env s req = (s, [])) :=
  ⟨fun cfg ops s id r hwf hok hget hterm => applyOps_preserves cfg ops s hwf hok hget hterm,
   monitor_process_record_skip⟩

/-- Claim C1 witness: a Completed record survives a monitor tick followed
by an intake call unchanged. -/
theorem terminal_status_absorption_witness :
    (Store.WF storeFixDone ∧ opsOK cfgFix opsFix storeFixDone = true ∧
      storeFixDone.getRequest 1 = some reqFixDone ∧
      (reqFixDone.status = RequestStatus.Completed ∨
        reqFixDone.status = RequestStatus.Failed))
    ∧ (applyOps cfgFix opsFix storeFixDone).getRequest 1 = some reqFixDone :=
  ⟨⟨by decide, by decide, by decide, by decide⟩,
   terminal_status_absorption.1 cfgFix opsFix storeFixDone 1 reqFixDone (by decide)
     (by decide) (by decide) (by decide)⟩

end RelayX
